import Mathlib

/-!
# AltairX K1 VM execution core — verification development

Shallow embedding of the AltairX VM instruction-set interpreter
(`AxCore`, file `core.cpp` / `core.hpp` / `utilities.hpp`) in Lean 4.

Machine integers are modelled as `Nat` (with explicit `% 2 ^ 64` / masks where
the C++ uint64 arithmetic wraps) and `Int` for the signed views.  Panics
(`ax_panic`) abort execution in the source; the executors therefore return
`Except String CoreState`, with `.error` standing for an aborted run.
Host floating-point arithmetic (IEEE-754 operations supplied by the C++
compiler) is kept abstract as a record of functions over bit patterns
(`FpOps`); every theorem below quantifies over it, so nothing depends on a
particular floating-point model.
-/

/-- 2^64, the modulus of the C++ `uint64_t` arithmetic used by the core. -/
def U64 : Nat := 2 ^ 64

/-- 2^32, the modulus of the C++ `uint32_t` arithmetic (PC, IR, FR...). -/
def U32 : Nat := 2 ^ 32

/-- Wrapping 64-bit addition. -/
def u64add (a b : Nat) : Nat := (a + b) % U64

/-- Wrapping 64-bit subtraction (two's complement). -/
def u64sub (a b : Nat) : Nat := (a + (U64 - b % U64)) % U64

/-- Wrapping 64-bit multiplication. -/
def u64mul (a b : Nat) : Nat := (a * b) % U64

/-- 64-bit left shift.  A shift amount of 64 or more is UB in the C++ source;
it is modelled as 0 (the value of `a * 2 ^ b % 2 ^ 64` for `b ≥ 64`). -/
def u64shl (a b : Nat) : Nat := if b < 64 then (a <<< b) % U64 else 0

/-- 64-bit logical right shift; shift amounts of 64 or more are UB in the
C++ source and modelled as 0. -/
def u64shr (a b : Nat) : Nat := if b < 64 then (a % U64) >>> b else 0

/-- `sizemask` array from `utilities.hpp`: operand-width mask for
size codes 0 (byte), 1 (half), 2 (word), 3 (dword). -/
def sizemask (s : Fin 4) : Nat :=
  if s.val = 0 then 0xFF
  else if s.val = 1 then 0xFFFF
  else if s.val = 2 then 0xFFFFFFFF
  else 0xFFFFFFFFFFFFFFFF

/-- `sext_bitsize` from `utilities.hpp`: sign-extend the low `bitsize` bits of
`val` to a 64-bit word, via `(val ^ mask) - mask` on `uint64_t`. -/
def sext_bitsize (val bitsize : Nat) : Nat :=
  let mask := (1 <<< (bitsize - 1)) % U64
  u64sub (val ^^^ mask) mask

/-- `sext_bytesize` from `utilities.hpp`. -/
def sext_bytesize (val bytesize : Nat) : Nat :=
  sext_bitsize val (8 * bytesize)

/-- The signed value of the low `w` bits of `v` (C++ `static_cast` to the
signed integer type of width `w`). -/
def toSigned (w v : Nat) : Int :=
  let r := v % 2 ^ w
  if r < 2 ^ (w - 1) then (r : Int) else (r : Int) - 2 ^ w

/-- Bit pattern (two's complement) of an `int64_t` value, as in the C++
conversion of a signed value to `uint64_t`. -/
def intToU64 (i : Int) : Nat := (i % (U64 : Int)).toNat

/-- Arithmetic right shift of an `int64_t` (C++ `>>` on GCC/Clang: floor
division by the power of two).  Negative or out-of-range shift amounts are
UB in the source and modelled as 0. -/
def i64asr (a b : Int) : Int :=
  if 0 ≤ b ∧ b < 64 then Int.fdiv a (2 ^ b.toNat) else 0

/-- `float_to_half` from `utilities.hpp` — the AltairX-specific single → half
bit mapping (not IEEE-754 rounding), on the 32-bit pattern `val`. -/
def float_to_half (val : Nat) : Nat :=
  let mant := (val >>> 13) &&& 0x03FF
  let sign := (val >>> 16) &&& 0x8000
  let texp := (val >>> 23) &&& 0x00FF
  let exp0 := (texp &&& 0x0F) <<< 10
  let exp := if texp &&& 0x80 ≠ 0 then exp0 ||| 0x4000 else exp0
  sign ||| mant ||| exp

/-- `half_to_float` from `utilities.hpp` — inverse AltairX half → single
bit mapping, producing a 32-bit pattern. -/
def half_to_float (half : Nat) : Nat :=
  let exp1 := (half &&& 0x3C00) >>> 3
  let exp2 :=
    if half &&& 0x4000 ≠ 0 then exp1 ||| 0x4000
    else if exp1 ≠ 0 then exp1 ||| 0x3800
    else exp1
  let exp := exp2 <<< 16
  (((half &&& 0x8000) <<< 16) + ((half &&& 0x03FF) <<< 13) + exp) % U32

/-- Modelled from the spec: the file `opcode.hpp` (the `AxOpcode` 32-bit
bit-field view and the `AX_EXE_*` operation identifiers) is not under `src/`;
only its callers are.  Per the spec, all accessors are total functions of the
32-bit instruction word, so an opcode is modelled as the record of its decoded
fields: `bundle` flag, `unit` (3 bits), `operation` (per unit), `size`
(2 bits), `reg_a`/`reg_b`/`reg_c` (6 bits each) and the variant-specific
immediates.  `is_moveix` (unit and operation select ALU-MOVEIX) is kept as a
field of the view. -/
structure AxOpcode where
  is_bundle : Bool
  is_moveix : Bool
  unit : Fin 8
  operation : Nat
  size : Fin 4
  reg_a : Fin 64
  reg_b : Fin 64
  reg_c : Fin 64
  alu_has_imm : Bool
  alu_imm9 : Nat
  alu_shift : Nat
  alu_move_imm : Nat
  ext_ins_imm1 : Nat
  ext_ins_imm2 : Nat
  lsu_imm10 : Nat
  lsu_shift : Nat
  mdu_pq : Fin 4
  bru_imm23 : Nat
  bru_imm24 : Nat
  moveix_imm24 : Nat

/- Modelled from the spec: the numeric values of the `AX_EXE_*` operation
identifiers live in the missing `opcode.hpp`.  They are only ever compared
for equality by the unit executors, exactly as the source's `switch` does,
so distinct arbitrary values are chosen per unit family (operation ids are
"encoded per unit").  `AX_EXE_ALU_MOVEIX = 0` matches the source's noop
check (`opcode.operation() == 0`) in `core.hpp`. -/

def AX_EXE_ALU_MOVEIX : Nat := 0
def AX_EXE_ALU_MOVEI : Nat := 1
def AX_EXE_ALU_EXT : Nat := 2
def AX_EXE_ALU_INS : Nat := 3
def AX_EXE_ALU_MAX : Nat := 4
def AX_EXE_ALU_UMAX : Nat := 5
def AX_EXE_ALU_MIN : Nat := 6
def AX_EXE_ALU_UMIN : Nat := 7
def AX_EXE_ALU_ADDS : Nat := 8
def AX_EXE_ALU_SUBS : Nat := 9
def AX_EXE_ALU_CMP : Nat := 10
def AX_EXE_ALU_BIT : Nat := 11
def AX_EXE_ALU_TEST : Nat := 12
def AX_EXE_ALU_TESTFR : Nat := 13
def AX_EXE_ALU_ADD : Nat := 14
def AX_EXE_ALU_SUB : Nat := 15
def AX_EXE_ALU_XOR : Nat := 16
def AX_EXE_ALU_OR : Nat := 17
def AX_EXE_ALU_AND : Nat := 18
def AX_EXE_ALU_LSL : Nat := 19
def AX_EXE_ALU_ASR : Nat := 20
def AX_EXE_ALU_LSR : Nat := 21
def AX_EXE_ALU_SE : Nat := 22
def AX_EXE_ALU_SEN : Nat := 23
def AX_EXE_ALU_SLTS : Nat := 24
def AX_EXE_ALU_SLTU : Nat := 25
def AX_EXE_ALU_SAND : Nat := 26
def AX_EXE_ALU_SBIT : Nat := 27
def AX_EXE_ALU_CMOVEN : Nat := 28
def AX_EXE_ALU_CMOVE : Nat := 29

def AX_EXE_MDU_DIV : Nat := 0
def AX_EXE_MDU_DIVU : Nat := 1
def AX_EXE_MDU_MUL : Nat := 2
def AX_EXE_MDU_MULU : Nat := 3
def AX_EXE_MDU_GETMD : Nat := 4
def AX_EXE_MDU_SETMD : Nat := 5

def AX_EXE_LSU_LD : Nat := 0
def AX_EXE_LSU_LDS : Nat := 1
def AX_EXE_LSU_FLD : Nat := 2
def AX_EXE_LSU_ST : Nat := 3
def AX_EXE_LSU_FST : Nat := 4
def AX_EXE_LSU_LDI : Nat := 5
def AX_EXE_LSU_LDIS : Nat := 6
def AX_EXE_LSU_FLDI : Nat := 7
def AX_EXE_LSU_STI : Nat := 8
def AX_EXE_LSU_FSTI : Nat := 9

/- The FPU "overlapped" ids (HTOF/FTOH/ITOF/FTOI/FTOD/DTOF/ITOD/DTOI) are
equal to the arithmetic ids by the source's static_asserts. -/
def AX_EXE_FPU_FADD : Nat := 0
def AX_EXE_FPU_FSUB : Nat := 1
def AX_EXE_FPU_FMUL : Nat := 2
def AX_EXE_FPU_FNMUL : Nat := 3
def AX_EXE_FPU_FMIN : Nat := 4
def AX_EXE_FPU_FMAX : Nat := 5
def AX_EXE_FPU_FNEG : Nat := 6
def AX_EXE_FPU_FABS : Nat := 7
def AX_EXE_FPU_FCMOVE : Nat := 8
def AX_EXE_FPU_FE : Nat := 9
def AX_EXE_FPU_FEN : Nat := 10
def AX_EXE_FPU_FSLT : Nat := 11
def AX_EXE_FPU_FMOVE : Nat := 12
def AX_EXE_FPU_FCMP : Nat := 13

def AX_EXE_EFU_FDIV : Nat := 0
def AX_EXE_EFU_FATAN2 : Nat := 1
def AX_EXE_EFU_FSQRT : Nat := 2
def AX_EXE_EFU_FSIN : Nat := 3
def AX_EXE_EFU_FATAN : Nat := 4
def AX_EXE_EFU_FEXP : Nat := 5
def AX_EXE_EFU_INVSQRT : Nat := 6
def AX_EXE_EFU_SETEF : Nat := 7
def AX_EXE_EFU_GETEF : Nat := 8

def AX_EXE_BRU_BEQ : Nat := 0
def AX_EXE_BRU_BNE : Nat := 1
def AX_EXE_BRU_BLT : Nat := 2
def AX_EXE_BRU_BGE : Nat := 3
def AX_EXE_BRU_BLTU : Nat := 4
def AX_EXE_BRU_BGEU : Nat := 5
def AX_EXE_BRU_BEQU : Nat := 6
def AX_EXE_BRU_BNEU : Nat := 7
def AX_EXE_BRU_BRA : Nat := 8
def AX_EXE_BRU_CALLR : Nat := 9
def AX_EXE_BRU_JUMP : Nat := 10
def AX_EXE_BRU_CALL : Nat := 11
def AX_EXE_BRU_INDIRECTCALLR : Nat := 12
def AX_EXE_BRU_INDIRECTCALL : Nat := 13

def AX_EXE_CU_GETIR : Nat := 0
def AX_EXE_CU_SETFR : Nat := 1
def AX_EXE_CU_MMU : Nat := 2
def AX_EXE_CU_SYNC : Nat := 3
def AX_EXE_CU_SYSCALL : Nat := 4
def AX_EXE_CU_RETI : Nat := 5

/-- Register constants from `core.hpp`. -/
def REG_ACC : Fin 64 := ⟨56, by omega⟩

/-- BA1/BA2: ALU bypass register of slot 0 / slot 1 (`REG_BA1 + slot`). -/
def REG_BA (slot : Fin 2) : Fin 64 := ⟨57 + slot.val, by omega⟩

/-- BF1/BF2: FPU bypass register of slot 0 / slot 1 (`REG_BF1 + slot`). -/
def REG_BF (slot : Fin 2) : Fin 64 := ⟨59 + slot.val, by omega⟩

/-- BL1/BL2: LSU bypass register of slot 0 / slot 1 (`REG_BL1 + slot`). -/
def REG_BL (slot : Fin 2) : Fin 64 := ⟨61 + slot.val, by omega⟩

def REG_ZERO : Fin 64 := ⟨63, by omega⟩

/-- Flag-register bit masks from `core.hpp`. -/
def Z_MASK : Nat := 0x01
def C_MASK : Nat := 0x02
def N_MASK : Nat := 0x04
def O_MASK : Nat := 0x08
def U_MASK : Nat := 0x10

/-- `AxCore::RegisterSet` (core.hpp). -/
structure RegisterSet where
  lr : Nat
  br : Nat
  lc : Nat
  fr : Nat
  pc : Nat
  ir : Nat
  cc : Nat
  ic : Nat
  gpi : Fin 64 → Nat
  gpf : Fin 64 → Nat
  mdu : Fin 4 → Nat
  efu_q : Nat

/-- Core state: the register set, the byte-addressable memory collaborator
(`AxMemory`, modelled as a byte map), and the `m_syscall` latch. -/
structure CoreState where
  regs : RegisterSet
  mem : Nat → Nat
  m_syscall : Nat

/-- Pointwise update of a register-file function. -/
def updFin {n : Nat} (f : Fin n → Nat) (i : Fin n) (v : Nat) : Fin n → Nat :=
  fun j => if j = i then v else f j

def setGpi (s : CoreState) (i : Fin 64) (v : Nat) : CoreState :=
  { s with regs := { s.regs with gpi := updFin s.regs.gpi i v } }

def setGpf (s : CoreState) (i : Fin 64) (v : Nat) : CoreState :=
  { s with regs := { s.regs with gpf := updFin s.regs.gpf i v } }

def setMdu (s : CoreState) (i : Fin 4) (v : Nat) : CoreState :=
  { s with regs := { s.regs with mdu := updFin s.regs.mdu i v } }

def setFr (s : CoreState) (v : Nat) : CoreState :=
  { s with regs := { s.regs with fr := v } }

def setPc (s : CoreState) (v : Nat) : CoreState :=
  { s with regs := { s.regs with pc := v } }

def setIr (s : CoreState) (v : Nat) : CoreState :=
  { s with regs := { s.regs with ir := v } }

/-- `fr |= mask`. -/
def frSet (fr mask : Nat) : Nat := fr ||| mask

/-- `fr &= 0xFFFFFFFFu - mask`. -/
def frClear (fr mask : Nat) : Nat := fr &&& (0xFFFFFFFF - mask)

/-- `do_cmp` (core.cpp): integer compare at width `w`, on the signed values
`left`, `right` of the width-`w` operands; returns the new flag register.
The overflow test is `__builtin_sub_overflow` at width `w` (equivalently the
MSVC range check), `tmp` is the wrapped difference reinterpreted unsigned. -/
def do_cmp (w fr : Nat) (left right : Int) : Nat :=
  let diff : Int := left - right
  let fr :=
    if diff < -(2 ^ (w - 1) : Int) ∨ (2 ^ (w - 1) : Int) ≤ diff then frSet fr O_MASK
    else frClear fr O_MASK
  let tmp : Nat := (diff % (2 ^ w : Int)).toNat
  let fr := if tmp = 0 then frSet fr Z_MASK else frClear fr Z_MASK
  let fr := if tmp > (left % (2 ^ w : Int)).toNat then frSet fr C_MASK else frClear fr C_MASK
  let fr := if 2 ^ (w - 1) ≤ tmp then frSet fr N_MASK else frClear fr N_MASK
  frClear fr U_MASK

/-- Host floating-point operations on IEEE-754 bit patterns, supplied by the
C++ compiler/libm and kept abstract (`f32`: 32-bit patterns, `f64`: 64-bit
patterns).  `is_real` is `utilities.hpp`'s `fpclassify`-based test
(`FP_ZERO` or `FP_NORMAL`), `qnan` the `quiet_NaN` pattern. -/
structure FpOps where
  f32add : Nat → Nat → Nat
  f32sub : Nat → Nat → Nat
  f32mul : Nat → Nat → Nat
  f32neg : Nat → Nat
  f32abs : Nat → Nat
  f32div : Nat → Nat → Nat
  f32atan2 : Nat → Nat → Nat
  f32sqrt : Nat → Nat
  f32sin : Nat → Nat
  f32atan : Nat → Nat
  f32exp : Nat → Nat
  f32eq : Nat → Nat → Bool
  f32lt : Nat → Nat → Bool
  f32is_real : Nat → Bool
  f32qnan : Nat
  f64add : Nat → Nat → Nat
  f64sub : Nat → Nat → Nat
  f64mul : Nat → Nat → Nat
  f64neg : Nat → Nat
  f64abs : Nat → Nat
  f64div : Nat → Nat → Nat
  f64atan2 : Nat → Nat → Nat
  f64sqrt : Nat → Nat
  f64sin : Nat → Nat
  f64atan : Nat → Nat
  f64exp : Nat → Nat
  f64eq : Nat → Nat → Bool
  f64lt : Nat → Nat → Bool
  f64is_real : Nat → Bool
  f64qnan : Nat
  i64tof32 : Int → Nat
  f32toi64 : Nat → Int
  f32tof64 : Nat → Nat
  f64tof32 : Nat → Nat
  i64tof64 : Int → Nat
  f64toi64 : Nat → Int

/-- `do_fcmp` (core.cpp), parameterized by the FP classification/compare of
the width in use; returns the new flag register. -/
def do_fcmp (isReal : Nat → Bool) (feq flt : Nat → Nat → Bool) (fr left right : Nat) : Nat :=
  if ¬ isReal left ∨ ¬ isReal right then U_MASK
  else
    let fr := if feq left right then frSet fr Z_MASK else frClear fr Z_MASK
    let fr :=
      if flt left right then frSet (frSet fr N_MASK) C_MASK
      else frClear (frClear fr N_MASK) C_MASK
    frClear (frClear fr U_MASK) O_MASK

/- ## ALU (`AxCore::execute_alu`) -/

/-- ALU `writeback` lambda: always write the slot's BA bypass; write `reg_a`
unless it is ACC. -/
def alu_writeback (op : AxOpcode) (slot : Fin 2) (value : Nat) (s : CoreState) : CoreState :=
  let s := setGpi s (REG_BA slot) value
  if op.reg_a ≠ REG_ACC then setGpi s op.reg_a value else s

/-- ALU `orback` lambda (INS): OR into the destination, or into the bypass
directly when `reg_a` is ACC. -/
def alu_orback (op : AxOpcode) (slot : Fin 2) (value : Nat) (s : CoreState) : CoreState :=
  if op.reg_a = REG_ACC then
    setGpi s (REG_BA slot) (s.regs.gpi (REG_BA slot) ||| s.regs.gpi op.reg_a)
  else
    let s := setGpi s op.reg_a (s.regs.gpi op.reg_a ||| value)
    setGpi s (REG_BA slot) (s.regs.gpi op.reg_a)

/-- ALU `read_reg` lambda: ACC reads redirect to the slot's BA bypass. -/
def alu_read_reg (slot : Fin 2) (s : CoreState) (reg : Fin 64) : Nat :=
  if reg = REG_ACC then s.regs.gpi (REG_BA slot) else s.regs.gpi reg

/-- ALU `left` lambda: read `reg_b`. -/
def alu_left (op : AxOpcode) (slot : Fin 2) (s : CoreState) : Nat :=
  alu_read_reg slot s op.reg_b

/-- ALU `right` lambda: `sext9(alu_imm9) ^ (imm24 << 8)` in the immediate
form, otherwise `read_reg(reg_c)` (the source applies no `alu_shift` here,
unlike its MDU counterpart). -/
def alu_right (op : AxOpcode) (slot : Fin 2) (imm24 : Nat) (s : CoreState) : Nat :=
  if ¬ op.alu_has_imm then
    alu_read_reg slot s op.reg_c
  else
    sext_bitsize op.alu_imm9 9 ^^^ ((imm24 <<< 8) % U64)

/-- ALU `trunc` lambda. -/
def alu_trunc (op : AxOpcode) (v : Nat) : Nat := v &&& sizemask op.size

/-- ALU `sext` lambda: `sext_bytesize(value, 1 << size)`. -/
def alu_sext (op : AxOpcode) (v : Nat) : Nat := sext_bytesize v (1 <<< op.size.val)

/-- `AxCore::execute_alu` (core.cpp). -/
def execute_alu (op : AxOpcode) (slot : Fin 2) (imm24 : Nat) (s : CoreState) :
    Except String CoreState :=
  let left := alu_left op slot s
  let right := alu_right op slot imm24 s
  let trunc := alu_trunc op
  let sext := alu_sext op
  if op.operation = AX_EXE_ALU_MOVEIX then .ok s
  else if op.operation = AX_EXE_ALU_MOVEI then
    .ok (alu_writeback op slot (sext_bitsize op.alu_move_imm 18 ^^^ ((imm24 <<< 18) % U64)) s)
  else if op.operation = AX_EXE_ALU_EXT then
    .ok (alu_writeback op slot ((left >>> op.ext_ins_imm1) &&& u64sub (u64shl 1 op.ext_ins_imm2) 1) s)
  else if op.operation = AX_EXE_ALU_INS then
    .ok (alu_orback op slot (u64shl left op.ext_ins_imm1 &&& u64sub (u64shl 1 op.ext_ins_imm2) 1) s)
  else if op.operation = AX_EXE_ALU_MAX then .error "AX_EXE_ALU_MAX not implemented"
  else if op.operation = AX_EXE_ALU_UMAX then .error "AX_EXE_ALU_UMAX not implemented"
  else if op.operation = AX_EXE_ALU_MIN then .error "AX_EXE_ALU_MIN not implemented"
  else if op.operation = AX_EXE_ALU_UMIN then .error "AX_EXE_ALU_UMIN not implemented"
  else if op.operation = AX_EXE_ALU_ADDS then
    .ok (alu_writeback op slot (sext (u64add (trunc left) (trunc right))) s)
  else if op.operation = AX_EXE_ALU_SUBS then
    .ok (alu_writeback op slot (sext (u64sub (trunc left) (trunc right))) s)
  else if op.operation = AX_EXE_ALU_CMP then
    if op.size.val = 0 then .ok (setFr s (do_cmp 8 s.regs.fr (toSigned 8 left) (toSigned 8 right)))
    else if op.size.val = 1 then .ok (setFr s (do_cmp 16 s.regs.fr (toSigned 16 left) (toSigned 16 right)))
    else if op.size.val = 2 then .ok (setFr s (do_cmp 32 s.regs.fr (toSigned 32 left) (toSigned 32 right)))
    else .ok (setFr s (do_cmp 64 s.regs.fr (toSigned 64 left) (toSigned 64 right)))
  else if op.operation = AX_EXE_ALU_BIT then .error "AX_EXE_ALU_CMPBIT"
  else if op.operation = AX_EXE_ALU_TEST then .error "AX_EXE_ALU_TEST"
  else if op.operation = AX_EXE_ALU_TESTFR then .error "AX_EXE_ALU_TESTFR"
  else if op.operation = AX_EXE_ALU_ADD then
    .ok (alu_writeback op slot (trunc (u64add (trunc left) (trunc right))) s)
  else if op.operation = AX_EXE_ALU_SUB then
    .ok (alu_writeback op slot (trunc (u64sub (trunc left) (trunc right))) s)
  else if op.operation = AX_EXE_ALU_XOR then
    .ok (alu_writeback op slot (trunc left ^^^ trunc right) s)
  else if op.operation = AX_EXE_ALU_OR then
    .ok (alu_writeback op slot (trunc left ||| trunc right) s)
  else if op.operation = AX_EXE_ALU_AND then
    .ok (alu_writeback op slot (trunc left &&& trunc right) s)
  else if op.operation = AX_EXE_ALU_LSL then
    .ok (alu_writeback op slot (trunc (u64shl (trunc left) (trunc right))) s)
  else if op.operation = AX_EXE_ALU_ASR then
    .ok (alu_writeback op slot
      (trunc (intToU64 (i64asr (toSigned 64 (sext (trunc left))) (toSigned 64 (sext (trunc right)))))) s)
  else if op.operation = AX_EXE_ALU_LSR then
    .ok (alu_writeback op slot (trunc (u64shr (trunc left) (trunc right))) s)
  else if op.operation = AX_EXE_ALU_SE then
    .ok (alu_writeback op slot (if trunc left = trunc right then 1 else 0) s)
  else if op.operation = AX_EXE_ALU_SEN then
    .ok (alu_writeback op slot (if trunc left ≠ trunc right then 1 else 0) s)
  else if op.operation = AX_EXE_ALU_SLTS then
    .ok (alu_writeback op slot (if sext left < sext right then 1 else 0) s)
  else if op.operation = AX_EXE_ALU_SLTU then
    .ok (alu_writeback op slot (if trunc left ≠ trunc right then 1 else 0) s)
  else if op.operation = AX_EXE_ALU_SAND then
    .ok (alu_writeback op slot (if trunc left &&& trunc right ≠ 0 then 1 else 0) s)
  else if op.operation = AX_EXE_ALU_SBIT then
    .ok (alu_writeback op slot (if trunc left &&& trunc right = trunc right then 1 else 0) s)
  else if op.operation = AX_EXE_ALU_CMOVEN then
    .ok (if trunc left = 0 then alu_writeback op slot (trunc right) s else s)
  else if op.operation = AX_EXE_ALU_CMOVE then
    .ok (if trunc left ≠ 0 then alu_writeback op slot (trunc right) s else s)
  else .error "Unknown ALU operation"

/- ## MDU (`AxCore::execute_mdu`) -/

/-- MDU `left` lambda: plain `gpi[reg_b]` (no bypass redirect). -/
def mdu_left (op : AxOpcode) (s : CoreState) : Nat := s.regs.gpi op.reg_b

/-- MDU `right` lambda: immediate form as for the ALU, otherwise
`gpi[reg_c] << alu_shift`. -/
def mdu_right (op : AxOpcode) (imm24 : Nat) (s : CoreState) : Nat :=
  if ¬ op.alu_has_imm then
    u64shl (s.regs.gpi op.reg_c) op.alu_shift
  else
    sext_bitsize op.alu_imm9 9 ^^^ ((imm24 <<< 8) % U64)

/-- `AxCore::execute_mdu` (core.cpp).  Division by zero is not guarded in the
source (UB); it is modelled as a failing run.  Signed overflow of the `int64`
multiply (UB) is modelled as wrap-around. -/
def execute_mdu (op : AxOpcode) (imm24 : Nat) (s : CoreState) : Except String CoreState :=
  let left := mdu_left op s
  let right := mdu_right op imm24 s
  let trunc := alu_trunc op
  let sext := alu_sext op
  if op.operation = AX_EXE_MDU_DIV then
    let a := toSigned 64 (sext (trunc left))
    let b := toSigned 64 (trunc (sext (trunc right)))
    if b = 0 then .error "divide by zero"
    else .ok (setMdu (setMdu s 0 (trunc (intToU64 (Int.tdiv a b)))) 1 (trunc (intToU64 (Int.tmod a b))))
  else if op.operation = AX_EXE_MDU_DIVU then
    let b := sext (trunc right)
    if b = 0 then .error "divide by zero"
    else .ok (setMdu (setMdu s 0 (trunc (trunc left / b))) 1 (trunc (trunc left % b)))
  else if op.operation = AX_EXE_MDU_MUL then
    .ok (setMdu s 2 (trunc (intToU64 (toSigned 64 (sext (trunc left)) * toSigned 64 (sext (trunc right))))))
  else if op.operation = AX_EXE_MDU_MULU then
    .ok (setMdu s 2 (trunc (u64mul (trunc left) (sext (trunc right)))))
  else if op.operation = AX_EXE_MDU_GETMD then
    .ok (setGpi s op.reg_a (s.regs.mdu op.mdu_pq))
  else if op.operation = AX_EXE_MDU_SETMD then
    .ok (setMdu s op.mdu_pq (s.regs.gpi op.reg_a))
  else .error "Unknown MDU operation"

/- ## LSU (`AxCore::execute_lsu`, `AxCore::do_load`, `AxCore::do_store`) -/

/-- Little-endian read of `n` bytes from the memory collaborator. -/
def loadBytes (mem : Nat → Nat) (addr : Nat) : Nat → Nat
  | 0 => 0
  | n + 1 => mem addr % 256 + 256 * loadBytes mem (u64add addr 1) n

/-- Little-endian write of the low `n` bytes of `v`. -/
def storeBytes (mem : Nat → Nat) (addr v : Nat) : Nat → (Nat → Nat)
  | 0 => mem
  | n + 1 => storeBytes (fun a => if a = addr then v % 256 else mem a) (u64add addr 1) (v / 256) n

/-- `AxCore::do_load` (core.cpp): zero-extended load of 1/2/4/8 bytes;
any other size code panics. -/
def do_load (mem : Nat → Nat) (addr size : Nat) : Except String Nat :=
  if size = 0 then .ok (loadBytes mem addr 1)
  else if size = 1 then .ok (loadBytes mem addr 2)
  else if size = 2 then .ok (loadBytes mem addr 4)
  else if size = 3 then .ok (loadBytes mem addr 8)
  else .error "Wrong size in load operation"

/-- `AxCore::do_store` (core.cpp): store of the low 1/2/4/8 bytes of `src`;
any other size code panics. -/
def do_store (mem : Nat → Nat) (src addr size : Nat) : Except String (Nat → Nat) :=
  if size = 0 then .ok (storeBytes mem addr src 1)
  else if size = 1 then .ok (storeBytes mem addr src 2)
  else if size = 2 then .ok (storeBytes mem addr src 4)
  else if size = 3 then .ok (storeBytes mem addr src 8)
  else .error "Wrong size in store operation"

/-- LSU `writeback` lambda: write `reg_a` (unconditionally — no ACC check in
the source) and the slot's BL bypass. -/
def lsu_writeback (op : AxOpcode) (slot : Fin 2) (value : Nat) (s : CoreState) : CoreState :=
  setGpi (setGpi s op.reg_a value) (REG_BL slot) value

/-- LSU `writeback_float` lambda: write FP `reg_a` and the slot's BL bypass. -/
def lsu_writeback_float (op : AxOpcode) (slot : Fin 2) (value : Nat) (s : CoreState) : CoreState :=
  setGpf (setGpf s op.reg_a value) (REG_BL slot) value

/-- LSU `read_reg` lambda: ACC reads redirect to the slot's BL bypass. -/
def lsu_read_reg (slot : Fin 2) (s : CoreState) (reg : Fin 64) : Nat :=
  if reg = REG_ACC then s.regs.gpi (REG_BL slot) else s.regs.gpi reg

/-- LSU `addrreg` lambda: `read_reg(reg_b) + (read_reg(reg_c) << lsu_shift)`. -/
def lsu_addrreg (op : AxOpcode) (slot : Fin 2) (s : CoreState) : Nat :=
  u64add (lsu_read_reg slot s op.reg_b) (u64shl (lsu_read_reg slot s op.reg_c) op.lsu_shift)

/-- LSU `addrimm` lambda: `read_reg(reg_b)` plus the signed extended
immediate `sext10(lsu_imm10) ^ (imm24 << 9)` (two's complement addition). -/
def lsu_addrimm (op : AxOpcode) (slot : Fin 2) (imm24 : Nat) (s : CoreState) : Nat :=
  let tmp := sext_bitsize op.lsu_imm10 10
  let off := tmp ^^^ ((imm24 <<< 9) % U64)
  u64add (lsu_read_reg slot s op.reg_b) off

/-- LSU `sext` lambda. -/
def lsu_sext (op : AxOpcode) (v : Nat) : Nat := sext_bytesize v (1 <<< op.size.val)

/-- `AxCore::execute_lsu` (core.cpp).  `fsize_to_isize` maps FP size codes
0/1 to integer size codes 2/3 (`size + 2`). -/
def execute_lsu (op : AxOpcode) (slot : Fin 2) (imm24 : Nat) (s : CoreState) :
    Except String CoreState :=
  if op.operation = AX_EXE_LSU_LD then
    (do_load s.mem (lsu_addrreg op slot s) op.size.val).map fun v => lsu_writeback op slot v s
  else if op.operation = AX_EXE_LSU_LDS then
    (do_load s.mem (lsu_addrreg op slot s) op.size.val).map fun v =>
      lsu_writeback op slot (lsu_sext op v) s
  else if op.operation = AX_EXE_LSU_FLD then
    (do_load s.mem (lsu_addrreg op slot s) (op.size.val + 2)).map fun v =>
      lsu_writeback_float op slot v s
  else if op.operation = AX_EXE_LSU_ST then
    (do_store s.mem (s.regs.gpi op.reg_a) (lsu_addrreg op slot s) op.size.val).map fun m =>
      { s with mem := m }
  else if op.operation = AX_EXE_LSU_FST then
    (do_store s.mem (s.regs.gpf op.reg_a) (lsu_addrreg op slot s) (op.size.val + 2)).map fun m =>
      { s with mem := m }
  else if op.operation = AX_EXE_LSU_LDI then
    (do_load s.mem (lsu_addrimm op slot imm24 s) op.size.val).map fun v =>
      lsu_writeback op slot v s
  else if op.operation = AX_EXE_LSU_LDIS then
    (do_load s.mem (lsu_addrimm op slot imm24 s) op.size.val).map fun v =>
      lsu_writeback op slot (lsu_sext op v) s
  else if op.operation = AX_EXE_LSU_FLDI then
    (do_load s.mem (lsu_addrimm op slot imm24 s) (op.size.val + 2)).map fun v =>
      lsu_writeback_float op slot v s
  else if op.operation = AX_EXE_LSU_STI then
    (do_store s.mem (s.regs.gpi op.reg_a) (lsu_addrimm op slot imm24 s) op.size.val).map fun m =>
      { s with mem := m }
  else if op.operation = AX_EXE_LSU_FSTI then
    (do_store s.mem (s.regs.gpf op.reg_a) (lsu_addrimm op slot imm24 s) (op.size.val + 2)).map fun m =>
      { s with mem := m }
  else .error "Unknown LSU operation"

/- ## FPU (`AxCore::execute_fpu`) -/

/-- FPU `read_reg` lambda, raw 64-bit content: ACC reads redirect to the
slot's BF bypass. -/
def fpu_read_raw (slot : Fin 2) (s : CoreState) (reg : Fin 64) : Nat :=
  if reg = REG_ACC then s.regs.gpf (REG_BF slot) else s.regs.gpf reg

/-- `to_floating_point<float>`: the low 32 bits of the register. -/
def fpu_read_f32 (slot : Fin 2) (s : CoreState) (reg : Fin 64) : Nat :=
  fpu_read_raw slot s reg &&& 0xFFFFFFFF

/-- `to_floating_point<double>`: the full 64-bit pattern. -/
def fpu_read_f64 (slot : Fin 2) (s : CoreState) (reg : Fin 64) : Nat :=
  fpu_read_raw slot s reg

/-- `to_floating_point<uint16_t>` (half): the low 16 bits. -/
def fpu_read_u16 (slot : Fin 2) (s : CoreState) (reg : Fin 64) : Nat :=
  fpu_read_raw slot s reg &&& 0xFFFF

/-- `to_floating_point<int64_t>`: the signed view of the 64-bit pattern. -/
def fpu_read_i64 (slot : Fin 2) (s : CoreState) (reg : Fin 64) : Int :=
  toSigned 64 (fpu_read_raw slot s reg)

/-- Common tail of the FPU `writeback` lambda: `from_floating_point(value)`
goes to the slot's BF bypass, and to `reg_a` unless it is ACC. -/
def fpu_writeback_bits (op : AxOpcode) (slot : Fin 2) (bits : Nat) (s : CoreState) : CoreState :=
  let s := setGpf s (REG_BF slot) bits
  if op.reg_a ≠ REG_ACC then setGpf s op.reg_a bits else s

/-- FPU `writeback` at `float`: non-real values decay to the quiet NaN,
then the 32-bit pattern is written (high half zero). -/
def fpu_writeback_f32 (ops : FpOps) (op : AxOpcode) (slot : Fin 2) (v : Nat) (s : CoreState) :
    CoreState :=
  let v := if ¬ ops.f32is_real v then ops.f32qnan else v
  fpu_writeback_bits op slot (v &&& 0xFFFFFFFF) s

/-- FPU `writeback` at `double`. -/
def fpu_writeback_f64 (ops : FpOps) (op : AxOpcode) (slot : Fin 2) (v : Nat) (s : CoreState) :
    CoreState :=
  let v := if ¬ ops.f64is_real v then ops.f64qnan else v
  fpu_writeback_bits op slot (v % U64) s

/-- FPU `writeback` at `int64_t`: `is_real` classifies the value converted to
`double`, which is finite for every `int64_t`, so the NaN coercion never
fires; the two's-complement pattern is written. -/
def fpu_writeback_i64 (op : AxOpcode) (slot : Fin 2) (v : Int) (s : CoreState) : CoreState :=
  fpu_writeback_bits op slot (intToU64 v) s

/-- FPU `writeback` at `uint16_t` (FTOH result): `is_real` of an integer is
likewise always true; the zero-extended 16-bit pattern is written. -/
def fpu_writeback_u16 (op : AxOpcode) (slot : Fin 2) (v : Nat) (s : CoreState) : CoreState :=
  fpu_writeback_bits op slot (v &&& 0xFFFF) s

/-- FPU `writeback` at `uint64_t` (FE/FEN/FSLT results 0/1). -/
def fpu_writeback_u64 (op : AxOpcode) (slot : Fin 2) (v : Nat) (s : CoreState) : CoreState :=
  fpu_writeback_bits op slot (v % U64) s

/-- `std::min` on patterns: `(b < a) ? b : a`. -/
def fminPat (flt : Nat → Nat → Bool) (a b : Nat) : Nat := if flt b a then b else a

/-- `std::max` on patterns: `(a < b) ? b : a`. -/
def fmaxPat (flt : Nat → Nat → Bool) (a b : Nat) : Nat := if flt a b then b else a

/-- `AxCore::execute_fpu` (core.cpp).  The inner `switch(op.size())` of every
arithmetic/conversion operation lacks `break` statements in the source: each
size case falls through the remaining cases into the default `ax_panic`.
This is modelled by chaining the writebacks of the reached cases (each
re-reading the registers the previous one updated) and ending in `.error`.
Only FCMOVE, FMOVE and FCMP (sizes 0/1) complete normally. -/
def execute_fpu (ops : FpOps) (op : AxOpcode) (slot : Fin 2) (imm24 : Nat) (s : CoreState) :
    Except String CoreState :=
  if op.operation = AX_EXE_FPU_FADD then
    let s := if op.size.val = 0 then
        fpu_writeback_f32 ops op slot
          (ops.f32add (fpu_read_f32 slot s op.reg_b) (fpu_read_f32 slot s op.reg_c)) s
      else s
    let s := if op.size.val ≤ 1 then
        fpu_writeback_f64 ops op slot
          (ops.f64add (fpu_read_f64 slot s op.reg_b) (fpu_read_f64 slot s op.reg_c)) s
      else s
    let _ := if op.size.val ≠ 2 then
        fpu_writeback_f32 ops op slot (half_to_float (fpu_read_u16 slot s op.reg_b)) s
      else s
    .error "Cannot perform FPU operation with size"
  else if op.operation = AX_EXE_FPU_FSUB then
    let s := if op.size.val = 0 then
        fpu_writeback_f32 ops op slot
          (ops.f32sub (fpu_read_f32 slot s op.reg_b) (fpu_read_f32 slot s op.reg_c)) s
      else s
    let s := if op.size.val ≤ 1 then
        fpu_writeback_f64 ops op slot
          (ops.f64sub (fpu_read_f64 slot s op.reg_b) (fpu_read_f64 slot s op.reg_c)) s
      else s
    let _ := if op.size.val ≠ 2 then
        fpu_writeback_u16 op slot (float_to_half (fpu_read_f32 slot s op.reg_b)) s
      else s
    .error "Cannot perform FPU operation with size"
  else if op.operation = AX_EXE_FPU_FMUL then
    if op.size.val ≤ 2 then
      let s := if op.size.val = 0 then
          fpu_writeback_f32 ops op slot
            (ops.f32mul (fpu_read_f32 slot s op.reg_b) (fpu_read_f32 slot s op.reg_c)) s
        else s
      let _ := if op.size.val ≤ 1 then
          fpu_writeback_f64 ops op slot
            (ops.f64mul (fpu_read_f64 slot s op.reg_b) (fpu_read_f64 slot s op.reg_c)) s
        else s
      .error "Cannot perform FPU operation with size == 2"
    else
      let _ := fpu_writeback_f32 ops op slot (ops.i64tof32 (fpu_read_i64 slot s op.reg_b)) s
      .error "Cannot perform FPU operation with size"
  else if op.operation = AX_EXE_FPU_FNMUL then
    let s := if op.size.val = 0 then
        fpu_writeback_f32 ops op slot
          (ops.f32mul (ops.f32neg (fpu_read_f32 slot s op.reg_b)) (fpu_read_f32 slot s op.reg_c)) s
      else s
    let s := if op.size.val ≤ 1 then
        fpu_writeback_f64 ops op slot
          (ops.f64mul (ops.f64neg (fpu_read_f64 slot s op.reg_b)) (fpu_read_f64 slot s op.reg_c)) s
      else s
    let _ := if op.size.val ≠ 2 then
        fpu_writeback_i64 op slot (ops.f32toi64 (fpu_read_f32 slot s op.reg_b)) s
      else s
    .error "Cannot perform FPU operation with size"
  else if op.operation = AX_EXE_FPU_FMIN then
    let s := if op.size.val = 0 then
        fpu_writeback_f32 ops op slot
          (fminPat ops.f32lt (fpu_read_f32 slot s op.reg_b) (fpu_read_f32 slot s op.reg_c)) s
      else s
    let s := if op.size.val ≤ 1 then
        fpu_writeback_f64 ops op slot
          (fminPat ops.f64lt (fpu_read_f64 slot s op.reg_b) (fpu_read_f64 slot s op.reg_c)) s
      else s
    let _ := if op.size.val ≠ 2 then
        fpu_writeback_f64 ops op slot (ops.f32tof64 (fpu_read_f32 slot s op.reg_b)) s
      else s
    .error "Cannot perform FPU operation with size"
  else if op.operation = AX_EXE_FPU_FMAX then
    let s := if op.size.val = 0 then
        fpu_writeback_f32 ops op slot
          (fmaxPat ops.f32lt (fpu_read_f32 slot s op.reg_b) (fpu_read_f32 slot s op.reg_c)) s
      else s
    let s := if op.size.val ≤ 1 then
        fpu_writeback_f64 ops op slot
          (fmaxPat ops.f64lt (fpu_read_f64 slot s op.reg_b) (fpu_read_f64 slot s op.reg_c)) s
      else s
    let _ := if op.size.val ≠ 2 then
        fpu_writeback_f32 ops op slot (ops.f64tof32 (fpu_read_f64 slot s op.reg_b)) s
      else s
    .error "Cannot perform FPU operation with size"
  else if op.operation = AX_EXE_FPU_FNEG then
    let s := if op.size.val = 0 then
        fpu_writeback_f32 ops op slot (ops.f32neg (fpu_read_f32 slot s op.reg_b)) s
      else s
    let s := if op.size.val ≤ 1 then
        fpu_writeback_f64 ops op slot (ops.f64neg (fpu_read_f64 slot s op.reg_b)) s
      else s
    let _ := if op.size.val ≠ 2 then
        fpu_writeback_f64 ops op slot (ops.i64tof64 (fpu_read_i64 slot s op.reg_b)) s
      else s
    .error "Cannot perform FPU operation with size"
  else if op.operation = AX_EXE_FPU_FABS then
    let s := if op.size.val = 0 then
        fpu_writeback_f32 ops op slot (ops.f32abs (fpu_read_f32 slot s op.reg_b)) s
      else s
    let s := if op.size.val ≤ 1 then
        fpu_writeback_f64 ops op slot (ops.f64abs (fpu_read_f64 slot s op.reg_b)) s
      else s
    let _ := if op.size.val ≠ 2 then
        fpu_writeback_i64 op slot (ops.f64toi64 (fpu_read_f64 slot s op.reg_b)) s
      else s
    .error "Cannot perform FPU operation with size"
  else if op.operation = AX_EXE_FPU_FCMOVE then
    .ok (if fpu_read_i64 slot s op.reg_b ≠ 0 then
        fpu_writeback_i64 op slot (fpu_read_i64 slot s op.reg_c) s
      else s)
  else if op.operation = AX_EXE_FPU_FE then
    let s := if op.size.val = 0 then
        fpu_writeback_u64 op slot
          (if ops.f32eq (fpu_read_f32 slot s op.reg_b) (fpu_read_f32 slot s op.reg_c) then 1 else 0) s
      else s
    let _ := if op.size.val ≤ 1 then
        fpu_writeback_u64 op slot
          (if ops.f64eq (fpu_read_f64 slot s op.reg_b) (fpu_read_f64 slot s op.reg_c) then 1 else 0) s
      else s
    .error "Cannot perform FPU operation with size"
  else if op.operation = AX_EXE_FPU_FEN then
    let s := if op.size.val = 0 then
        fpu_writeback_u64 op slot
          (if ops.f32eq (fpu_read_f32 slot s op.reg_b) (fpu_read_f32 slot s op.reg_c) then 0 else 1) s
      else s
    let _ := if op.size.val ≤ 1 then
        fpu_writeback_u64 op slot
          (if ops.f64eq (fpu_read_f64 slot s op.reg_b) (fpu_read_f64 slot s op.reg_c) then 0 else 1) s
      else s
    .error "Cannot perform FPU operation with size"
  else if op.operation = AX_EXE_FPU_FSLT then
    let s := if op.size.val = 0 then
        fpu_writeback_u64 op slot
          (if ops.f32lt (fpu_read_f32 slot s op.reg_b) (fpu_read_f32 slot s op.reg_c) then 1 else 0) s
      else s
    let _ := if op.size.val ≤ 1 then
        fpu_writeback_u64 op slot
          (if ops.f64lt (fpu_read_f64 slot s op.reg_b) (fpu_read_f64 slot s op.reg_c) then 1 else 0) s
      else s
    .error "Cannot perform FPU operation with size"
  else if op.operation = AX_EXE_FPU_FMOVE then
    .ok (fpu_writeback_i64 op slot (fpu_read_i64 slot s op.reg_b) s)
  else if op.operation = AX_EXE_FPU_FCMP then
    if op.size.val = 0 then
      .ok (setFr s (do_fcmp ops.f32is_real ops.f32eq ops.f32lt s.regs.fr
        (fpu_read_f32 slot s op.reg_b) (fpu_read_f32 slot s op.reg_c)))
    else if op.size.val = 1 then
      .ok (setFr s (do_fcmp ops.f64is_real ops.f64eq ops.f64lt s.regs.fr
        (fpu_read_f64 slot s op.reg_b) (fpu_read_f64 slot s op.reg_c)))
    else .error "Cannot perform FPU operation with size"
  else .error "Unknown FPU operation"

/- ## EFU (`AxCore::execute_efu`) -/

/-- EFU `writeback` lambda at `float`: the 32-bit pattern goes to EFU-Q
(no NaN coercion in the EFU). -/
def efu_writeback32 (v : Nat) (s : CoreState) : CoreState :=
  { s with regs := { s.regs with efu_q := v &&& 0xFFFFFFFF } }

/-- EFU `writeback` lambda at `double`. -/
def efu_writeback64 (v : Nat) (s : CoreState) : CoreState :=
  { s with regs := { s.regs with efu_q := v % U64 } }

/-- EFU `read_reg` lambda: plain FP register read (no ACC redirect). -/
def efu_read_f32 (s : CoreState) (reg : Fin 64) : Nat := s.regs.gpf reg &&& 0xFFFFFFFF

def efu_read_f64 (s : CoreState) (reg : Fin 64) : Nat := s.regs.gpf reg

/-- Bit pattern of `1.0f`, the numerator of INVSQRT at single precision. -/
def ONE_F32 : Nat := 0x3F800000

/-- Bit pattern of `1.0`, the numerator of INVSQRT at double precision. -/
def ONE_F64 : Nat := 0x3FF0000000000000

/-- `AxCore::execute_efu` (core.cpp). -/
def execute_efu (ops : FpOps) (op : AxOpcode) (imm24 : Nat) (s : CoreState) :
    Except String CoreState :=
  if op.operation = AX_EXE_EFU_FDIV then
    if op.size.val = 0 then
      .ok (efu_writeback32 (ops.f32div (efu_read_f32 s op.reg_b) (efu_read_f32 s op.reg_c)) s)
    else if op.size.val = 1 then
      .ok (efu_writeback64 (ops.f64div (efu_read_f64 s op.reg_b) (efu_read_f64 s op.reg_c)) s)
    else .error "Cannot perform FPU operation with size"
  else if op.operation = AX_EXE_EFU_FATAN2 then
    if op.size.val = 0 then
      .ok (efu_writeback32 (ops.f32atan2 (efu_read_f32 s op.reg_b) (efu_read_f32 s op.reg_c)) s)
    else if op.size.val = 1 then
      .ok (efu_writeback64 (ops.f64atan2 (efu_read_f64 s op.reg_b) (efu_read_f64 s op.reg_c)) s)
    else .error "Cannot perform FPU operation with size"
  else if op.operation = AX_EXE_EFU_FSQRT then
    if op.size.val = 0 then
      .ok (efu_writeback32 (ops.f32sqrt (efu_read_f32 s op.reg_b)) s)
    else if op.size.val = 1 then
      .ok (efu_writeback64 (ops.f64sqrt (efu_read_f64 s op.reg_b)) s)
    else .error "Cannot perform FPU operation with size"
  else if op.operation = AX_EXE_EFU_FSIN then
    if op.size.val = 0 then
      .ok (efu_writeback32 (ops.f32sin (efu_read_f32 s op.reg_b)) s)
    else if op.size.val = 1 then
      .ok (efu_writeback64 (ops.f64sin (efu_read_f64 s op.reg_b)) s)
    else .error "Cannot perform FPU operation with size"
  else if op.operation = AX_EXE_EFU_FATAN then
    if op.size.val = 0 then
      .ok (efu_writeback32 (ops.f32atan (efu_read_f32 s op.reg_b)) s)
    else if op.size.val = 1 then
      .ok (efu_writeback64 (ops.f64atan (efu_read_f64 s op.reg_b)) s)
    else .error "Cannot perform FPU operation with size"
  else if op.operation = AX_EXE_EFU_FEXP then
    if op.size.val = 0 then
      .ok (efu_writeback32 (ops.f32exp (efu_read_f32 s op.reg_b)) s)
    else if op.size.val = 1 then
      .ok (efu_writeback64 (ops.f64exp (efu_read_f64 s op.reg_b)) s)
    else .error "Cannot perform FPU operation with size"
  else if op.operation = AX_EXE_EFU_INVSQRT then
    if op.size.val = 0 then
      .ok (efu_writeback32 (ops.f32div ONE_F32 (ops.f32sqrt (efu_read_f32 s op.reg_b))) s)
    else if op.size.val = 1 then
      .ok (efu_writeback64 (ops.f64div ONE_F64 (ops.f64sqrt (efu_read_f64 s op.reg_b))) s)
    else .error "Cannot perform FPU operation with size"
  else if op.operation = AX_EXE_EFU_SETEF then
    .ok { s with regs := { s.regs with efu_q := s.regs.gpf op.reg_a } }
  else if op.operation = AX_EXE_EFU_GETEF then
    .ok (setGpf s op.reg_a s.regs.efu_q)
  else .error "Unknown EFU operation"

/- ## BRU (`AxCore::execute_bru`) -/

/-- BRU `relative23` lambda: `tosi(sext23(bru_imm23) ^ (imm24 << 22))`. -/
def bru_relative23 (op : AxOpcode) (imm24 : Nat) : Int :=
  toSigned 64 (sext_bitsize op.bru_imm23 23 ^^^ ((imm24 <<< 22) % U64))

/-- BRU `relative24` lambda: `tosi(sext24(bru_imm24) ^ (imm24 << 23))`. -/
def bru_relative24 (op : AxOpcode) (imm24 : Nat) : Int :=
  toSigned 64 (sext_bitsize op.bru_imm24 24 ^^^ ((imm24 <<< 23) % U64))

/-- BRU `absolute24` lambda: `bru_imm24 | (imm24 << 24)`. -/
def bru_absolute24 (op : AxOpcode) (imm24 : Nat) : Nat :=
  op.bru_imm24 ||| ((imm24 <<< 24) % U64)

/-- BRU/CU link value: `PC + 1 + (bundle ? 1 : 0)` in `uint32` arithmetic. -/
def lr_value (op : AxOpcode) (s : CoreState) : Nat :=
  (s.regs.pc + 1 + (if op.is_bundle then 1 else 0)) % U32

/-- BRU `add_pc` lambda: `pc = uint32(int64(pc) + value)`. -/
def add_pc (v : Int) (s : CoreState) : CoreState :=
  setPc s (((s.regs.pc : Int) + v) % (U32 : Int)).toNat

/-- `AxCore::execute_bru` (core.cpp). -/
def execute_bru (op : AxOpcode) (imm24 : Nat) (s : CoreState) : Except String CoreState :=
  let z := s.regs.fr &&& 1
  let c := (s.regs.fr >>> 1) &&& 1
  let n := (s.regs.fr >>> 2) &&& 1
  let o := (s.regs.fr >>> 3) &&& 1
  let u := (s.regs.fr >>> 4) &&& 1
  if op.operation = AX_EXE_BRU_BEQ then
    .ok (if z ≠ 0 ∧ u = 0 then add_pc (bru_relative23 op imm24) s else s)
  else if op.operation = AX_EXE_BRU_BNE then
    .ok (if z = 0 ∧ u = 0 then add_pc (bru_relative23 op imm24) s else s)
  else if op.operation = AX_EXE_BRU_BLT then
    .ok (if n ≠ o ∧ u = 0 then add_pc (bru_relative23 op imm24) s else s)
  else if op.operation = AX_EXE_BRU_BGE then
    .ok (if (z ≠ 0 ∨ n = o) ∧ u = 0 then add_pc (bru_relative23 op imm24) s else s)
  else if op.operation = AX_EXE_BRU_BLTU then
    .ok (if c ≠ 0 ∨ u ≠ 0 then add_pc (bru_relative23 op imm24) s else s)
  else if op.operation = AX_EXE_BRU_BGEU then
    .ok (if z ≠ 0 ∨ c = 0 ∨ u ≠ 0 then add_pc (bru_relative23 op imm24) s else s)
  else if op.operation = AX_EXE_BRU_BEQU then
    .ok (if z ≠ 0 ∨ u ≠ 0 then add_pc (bru_relative23 op imm24) s else s)
  else if op.operation = AX_EXE_BRU_BNEU then
    .ok (if z = 0 ∨ u ≠ 0 then add_pc (bru_relative23 op imm24) s else s)
  else if op.operation = AX_EXE_BRU_BRA then
    .ok (add_pc (bru_relative24 op imm24) s)
  else if op.operation = AX_EXE_BRU_CALLR then
    .ok (add_pc (bru_relative24 op imm24) (setGpi s ⟨31, by omega⟩ (lr_value op s)))
  else if op.operation = AX_EXE_BRU_JUMP then
    .ok (setPc s (bru_absolute24 op imm24 % U32))
  else if op.operation = AX_EXE_BRU_CALL then
    .ok (setPc (setGpi s ⟨31, by omega⟩ (lr_value op s)) (bru_absolute24 op imm24 % U32))
  else if op.operation = AX_EXE_BRU_INDIRECTCALLR then
    let s1 := setGpi s op.reg_a (lr_value op s)
    .ok (add_pc (toSigned 64 (s1.regs.gpi op.reg_b)) s1)
  else if op.operation = AX_EXE_BRU_INDIRECTCALL then
    let s1 := setGpi s op.reg_a (lr_value op s)
    .ok (setPc s1 (s1.regs.gpi op.reg_b % U32))
  else .error "Unknown BRU operation"

/- ## CU (`AxCore::execute_cu`) and the syscall gate -/

/-- `AxCore::execute_cu` (core.cpp).  SYSCALL latches
`IR ← PC + 1 + (bundle ? 1 : 0)`, parks `PC` at `0x80000000` and raises the
`m_syscall` latch. -/
def execute_cu (op : AxOpcode) (imm24 : Nat) (s : CoreState) : Except String CoreState :=
  if op.operation = AX_EXE_CU_GETIR then .error "AX_EXE_CU_GETIR not implemented"
  else if op.operation = AX_EXE_CU_SETFR then .error "AX_EXE_CU_SETFR not implemented"
  else if op.operation = AX_EXE_CU_MMU then .error "AX_EXE_CU_MMU not implemented"
  else if op.operation = AX_EXE_CU_SYNC then .error "AX_EXE_CU_SYNC not implemented"
  else if op.operation = AX_EXE_CU_SYSCALL then
    .ok { setPc (setIr s (lr_value op s)) 0x80000000 with m_syscall := 1 }
  else if op.operation = AX_EXE_CU_RETI then
    .ok (setPc s s.regs.ir)
  else .error "Unknown CU operation"

/-- `AxCore::syscall` (core.hpp), the driver-facing gate: returns false when
no syscall is pending; otherwise invokes the caller-supplied handler (host
code that may mutate registers and memory but has no access to the private
`m_syscall` member), clears the latch and returns true. -/
def syscall (handler : CoreState → CoreState) (s : CoreState) : Bool × CoreState :=
  if s.m_syscall = 0 then (false, s)
  else
    let s := handler s
    (true, { s with m_syscall := 0 })

/- ## Dispatch (`AxCore::execute_unit`, `AxCore::execute`) -/

/-- Unit dispatch resets GPR 63 and FPR 63 to zero before anything else. -/
def zero_reg63 (s : CoreState) : CoreState :=
  { s with regs := { s.regs with
      gpi := updFin s.regs.gpi REG_ZERO 0,
      gpf := updFin s.regs.gpf REG_ZERO 0 } }

/-- `AxCore::execute_unit` (core.cpp): zero GPR/FPR 63, then dispatch on
`issue = (slot << 3) | unit`. -/
def execute_unit (ops : FpOps) (op : AxOpcode) (slot : Fin 2) (imm24 : Nat) (s : CoreState) :
    Except String CoreState :=
  let s := zero_reg63 s
  let issue := slot.val * 8 + op.unit.val
  if issue = 0 ∨ issue = 1 ∨ issue = 8 ∨ issue = 9 then execute_alu op slot imm24 s
  else if issue = 2 ∨ issue = 10 then execute_lsu op slot imm24 s
  else if issue = 3 ∨ issue = 11 then execute_fpu ops op slot imm24 s
  else if issue = 5 then execute_efu ops op imm24 s
  else if issue = 6 then execute_mdu op imm24 s
  else if issue = 7 then execute_bru op imm24 s
  else if issue = 13 then execute_cu op imm24 s
  else if issue = 14 then .error "VU not supported yet"
  else .error "Wrong issue ID"

/-- `AxCore::execute` (core.cpp): run the bundle `(first, second)`; return 0
when PC changed, otherwise 2 for a bundle and 1 for a single instruction. -/
def execute (ops : FpOps) (first second : AxOpcode) (s : CoreState) :
    Except String (Nat × CoreState) :=
  let old_pc := s.regs.pc
  let imm24 : Nat := if first.is_bundle && second.is_moveix then second.moveix_imm24 else 0
  match execute_unit ops first 0 imm24 s with
  | .error e => .error e
  | .ok s1 =>
    match (if first.is_bundle && !second.is_moveix then execute_unit ops second 1 imm24 s1
           else .ok s1) with
    | .error e => .error e
    | .ok s2 =>
      if old_pc ≠ s2.regs.pc then .ok (0, s2)
      else .ok (if first.is_bundle then 2 else 1, s2)

/- ## Observation helpers for concrete runs -/

/-- GPR `i` after a unit execution (`none` when the run panicked). -/
def gpi_after (r : Except String CoreState) (i : Fin 64) : Option Nat :=
  match r with
  | .ok s => some (s.regs.gpi i)
  | .error _ => none

/-- FPR `i` after a unit execution. -/
def gpf_after (r : Except String CoreState) (i : Fin 64) : Option Nat :=
  match r with
  | .ok s => some (s.regs.gpf i)
  | .error _ => none

/-- Flag register after a unit execution. -/
def fr_after (r : Except String CoreState) : Option Nat :=
  match r with
  | .ok s => some s.regs.fr
  | .error _ => none

/-- PC after a unit execution. -/
def pc_after (r : Except String CoreState) : Option Nat :=
  match r with
  | .ok s => some s.regs.pc
  | .error _ => none

/-- MDU register `i` after a unit execution. -/
def mdu_after (r : Except String CoreState) (i : Fin 4) : Option Nat :=
  match r with
  | .ok s => some (s.regs.mdu i)
  | .error _ => none

/-- A concrete register set with everything zero. -/
def zeroRegs : RegisterSet :=
  { lr := 0, br := 0, lc := 0, fr := 0, pc := 0, ir := 0, cc := 0, ic := 0,
    gpi := fun _ => 0, gpf := fun _ => 0, mdu := fun _ => 0, efu_q := 0 }

/-- A concrete core state with zero registers and zero memory. -/
def zeroState : CoreState :=
  { regs := zeroRegs, mem := fun _ => 0, m_syscall := 0 }

/-- An opcode with every field zeroed, to be overridden per test. -/
def baseOp : AxOpcode :=
  { is_bundle := false, is_moveix := false, unit := 0, operation := 0, size := 0,
    reg_a := 0, reg_b := 0, reg_c := 0, alu_has_imm := false, alu_imm9 := 0,
    alu_shift := 0, alu_move_imm := 0, ext_ins_imm1 := 0, ext_ins_imm2 := 0,
    lsu_imm10 := 0, lsu_shift := 0, mdu_pq := 0, bru_imm23 := 0, bru_imm24 := 0,
    moveix_imm24 := 0 }

/-- A concrete instantiation of the abstract host floating-point operations,
used only to instantiate theorems that hold for every `FpOps`. -/
def trivFpOps : FpOps :=
  { f32add := fun _ _ => 0, f32sub := fun _ _ => 0, f32mul := fun _ _ => 0,
    f32neg := fun _ => 0, f32abs := fun _ => 0, f32div := fun _ _ => 0,
    f32atan2 := fun _ _ => 0, f32sqrt := fun _ => 0, f32sin := fun _ => 0,
    f32atan := fun _ => 0, f32exp := fun _ => 0,
    f32eq := fun _ _ => false, f32lt := fun _ _ => false,
    f32is_real := fun _ => true, f32qnan := 0x7FC00000,
    f64add := fun _ _ => 0, f64sub := fun _ _ => 0, f64mul := fun _ _ => 0,
    f64neg := fun _ => 0, f64abs := fun _ => 0, f64div := fun _ _ => 0,
    f64atan2 := fun _ _ => 0, f64sqrt := fun _ => 0, f64sin := fun _ => 0,
    f64atan := fun _ => 0, f64exp := fun _ => 0,
    f64eq := fun _ _ => false, f64lt := fun _ _ => false,
    f64is_real := fun _ => true, f64qnan := 0x7FF8000000000000,
    i64tof32 := fun _ => 0, f32toi64 := fun _ => 0,
    f32tof64 := fun _ => 0, f64tof32 := fun _ => 0,
    i64tof64 := fun _ => 0, f64toi64 := fun _ => 0 }

/- ## Basic lemmas about the state operations -/

theorem setGpi_gpi (s : CoreState) (i : Fin 64) (v : Nat) (r : Fin 64) :
    (setGpi s i v).regs.gpi r = if r = i then v else s.regs.gpi r := rfl

theorem setGpi_gpf (s : CoreState) (i : Fin 64) (v : Nat) :
    (setGpi s i v).regs.gpf = s.regs.gpf := rfl

theorem setGpf_gpf (s : CoreState) (i : Fin 64) (v : Nat) (r : Fin 64) :
    (setGpf s i v).regs.gpf r = if r = i then v else s.regs.gpf r := rfl

theorem setGpf_gpi (s : CoreState) (i : Fin 64) (v : Nat) :
    (setGpf s i v).regs.gpi = s.regs.gpi := rfl

theorem setFr_gpi (s : CoreState) (v : Nat) : (setFr s v).regs.gpi = s.regs.gpi := rfl

theorem setFr_gpf (s : CoreState) (v : Nat) : (setFr s v).regs.gpf = s.regs.gpf := rfl

theorem setMdu_gpi (s : CoreState) (i : Fin 4) (v : Nat) : (setMdu s i v).regs.gpi = s.regs.gpi := rfl

theorem setMdu_mdu (s : CoreState) (i : Fin 4) (v : Nat) (r : Fin 4) :
    (setMdu s i v).regs.mdu r = if r = i then v else s.regs.mdu r := rfl

/-- With an ACC destination, the ALU writeback touches only the BA bypass. -/
theorem alu_writeback_acc (op : AxOpcode) (slot : Fin 2) (v : Nat) (s : CoreState)
    (h : op.reg_a = REG_ACC) :
    alu_writeback op slot v s = setGpi s (REG_BA slot) v := by
  simp [alu_writeback, h]

/-- With an ACC destination, the ALU orback touches only the BA bypass. -/
theorem alu_orback_acc (op : AxOpcode) (slot : Fin 2) (v : Nat) (s : CoreState)
    (h : op.reg_a = REG_ACC) :
    alu_orback op slot v s
      = setGpi s (REG_BA slot) (s.regs.gpi (REG_BA slot) ||| s.regs.gpi op.reg_a) := by
  simp [alu_orback, h]

/-- With an ACC destination, the FPU writeback tail touches only the BF bypass. -/
theorem fpu_writeback_bits_acc (op : AxOpcode) (slot : Fin 2) (bits : Nat) (s : CoreState)
    (h : op.reg_a = REG_ACC) :
    fpu_writeback_bits op slot bits s = setGpf s (REG_BF slot) bits := by
  simp [fpu_writeback_bits, h]

theorem updFin_updFin {n : Nat} (f : Fin n → Nat) (i : Fin n) (v w : Nat) :
    updFin (updFin f i v) i w = updFin f i w := by
  funext j
  unfold updFin
  by_cases h : j = i <;> simp [h]

theorem zero_reg63_idem (s : CoreState) : zero_reg63 (zero_reg63 s) = zero_reg63 s := by
  unfold zero_reg63
  simp [updFin_updFin]

/- ## Write-back locality lemmas (ACC destinations) -/

theorem execute_alu_acc_gpi (op : AxOpcode) (slot : Fin 2) (imm24 : Nat) (s s' : CoreState)
    (hacc : op.reg_a = REG_ACC) (h : execute_alu op slot imm24 s = .ok s')
    (r : Fin 64) (hr : r ≠ REG_BA slot) : s'.regs.gpi r = s.regs.gpi r := by
  simp only [execute_alu] at h
  by_cases h0 : op.operation = AX_EXE_ALU_MOVEIX
  · rw [if_pos h0] at h; injection h with hx; subst hx; rfl
  rw [if_neg h0] at h
  by_cases h1 : op.operation = AX_EXE_ALU_MOVEI
  · rw [if_pos h1] at h; injection h with hx; subst hx
    rw [alu_writeback_acc _ _ _ _ hacc, setGpi_gpi]; exact if_neg hr
  rw [if_neg h1] at h
  by_cases h2 : op.operation = AX_EXE_ALU_EXT
  · rw [if_pos h2] at h; injection h with hx; subst hx
    rw [alu_writeback_acc _ _ _ _ hacc, setGpi_gpi]; exact if_neg hr
  rw [if_neg h2] at h
  by_cases h3 : op.operation = AX_EXE_ALU_INS
  · rw [if_pos h3] at h; injection h with hx; subst hx
    rw [alu_orback_acc _ _ _ _ hacc, setGpi_gpi]; exact if_neg hr
  rw [if_neg h3] at h
  by_cases h4 : op.operation = AX_EXE_ALU_MAX
  · rw [if_pos h4] at h; exact Except.noConfusion h
  rw [if_neg h4] at h
  by_cases h5 : op.operation = AX_EXE_ALU_UMAX
  · rw [if_pos h5] at h; exact Except.noConfusion h
  rw [if_neg h5] at h
  by_cases h6 : op.operation = AX_EXE_ALU_MIN
  · rw [if_pos h6] at h; exact Except.noConfusion h
  rw [if_neg h6] at h
  by_cases h7 : op.operation = AX_EXE_ALU_UMIN
  · rw [if_pos h7] at h; exact Except.noConfusion h
  rw [if_neg h7] at h
  by_cases h8 : op.operation = AX_EXE_ALU_ADDS
  · rw [if_pos h8] at h; injection h with hx; subst hx
    rw [alu_writeback_acc _ _ _ _ hacc, setGpi_gpi]; exact if_neg hr
  rw [if_neg h8] at h
  by_cases h9 : op.operation = AX_EXE_ALU_SUBS
  · rw [if_pos h9] at h; injection h with hx; subst hx
    rw [alu_writeback_acc _ _ _ _ hacc, setGpi_gpi]; exact if_neg hr
  rw [if_neg h9] at h
  by_cases h10 : op.operation = AX_EXE_ALU_CMP
  · rw [if_pos h10] at h
    by_cases hs0 : op.size.val = 0
    · rw [if_pos hs0] at h; injection h with hx; subst hx; rfl
    rw [if_neg hs0] at h
    by_cases hs1 : op.size.val = 1
    · rw [if_pos hs1] at h; injection h with hx; subst hx; rfl
    rw [if_neg hs1] at h
    by_cases hs2 : op.size.val = 2
    · rw [if_pos hs2] at h; injection h with hx; subst hx; rfl
    rw [if_neg hs2] at h
    injection h with hx; subst hx; rfl
  rw [if_neg h10] at h
  by_cases h11 : op.operation = AX_EXE_ALU_BIT
  · rw [if_pos h11] at h; exact Except.noConfusion h
  rw [if_neg h11] at h
  by_cases h12 : op.operation = AX_EXE_ALU_TEST
  · rw [if_pos h12] at h; exact Except.noConfusion h
  rw [if_neg h12] at h
  by_cases h13 : op.operation = AX_EXE_ALU_TESTFR
  · rw [if_pos h13] at h; exact Except.noConfusion h
  rw [if_neg h13] at h
  by_cases h14 : op.operation = AX_EXE_ALU_ADD
  · rw [if_pos h14] at h; injection h with hx; subst hx
    rw [alu_writeback_acc _ _ _ _ hacc, setGpi_gpi]; exact if_neg hr
  rw [if_neg h14] at h
  by_cases h15 : op.operation = AX_EXE_ALU_SUB
  · rw [if_pos h15] at h; injection h with hx; subst hx
    rw [alu_writeback_acc _ _ _ _ hacc, setGpi_gpi]; exact if_neg hr
  rw [if_neg h15] at h
  by_cases h16 : op.operation = AX_EXE_ALU_XOR
  · rw [if_pos h16] at h; injection h with hx; subst hx
    rw [alu_writeback_acc _ _ _ _ hacc, setGpi_gpi]; exact if_neg hr
  rw [if_neg h16] at h
  by_cases h17 : op.operation = AX_EXE_ALU_OR
  · rw [if_pos h17] at h; injection h with hx; subst hx
    rw [alu_writeback_acc _ _ _ _ hacc, setGpi_gpi]; exact if_neg hr
  rw [if_neg h17] at h
  by_cases h18 : op.operation = AX_EXE_ALU_AND
  · rw [if_pos h18] at h; injection h with hx; subst hx
    rw [alu_writeback_acc _ _ _ _ hacc, setGpi_gpi]; exact if_neg hr
  rw [if_neg h18] at h
  by_cases h19 : op.operation = AX_EXE_ALU_LSL
  · rw [if_pos h19] at h; injection h with hx; subst hx
    rw [alu_writeback_acc _ _ _ _ hacc, setGpi_gpi]; exact if_neg hr
  rw [if_neg h19] at h
  by_cases h20 : op.operation = AX_EXE_ALU_ASR
  · rw [if_pos h20] at h; injection h with hx; subst hx
    rw [alu_writeback_acc _ _ _ _ hacc, setGpi_gpi]; exact if_neg hr
  rw [if_neg h20] at h
  by_cases h21 : op.operation = AX_EXE_ALU_LSR
  · rw [if_pos h21] at h; injection h with hx; subst hx
    rw [alu_writeback_acc _ _ _ _ hacc, setGpi_gpi]; exact if_neg hr
  rw [if_neg h21] at h
  by_cases h22 : op.operation = AX_EXE_ALU_SE
  · rw [if_pos h22] at h; injection h with hx; subst hx
    rw [alu_writeback_acc _ _ _ _ hacc, setGpi_gpi]; exact if_neg hr
  rw [if_neg h22] at h
  by_cases h23 : op.operation = AX_EXE_ALU_SEN
  · rw [if_pos h23] at h; injection h with hx; subst hx
    rw [alu_writeback_acc _ _ _ _ hacc, setGpi_gpi]; exact if_neg hr
  rw [if_neg h23] at h
  by_cases h24 : op.operation = AX_EXE_ALU_SLTS
  · rw [if_pos h24] at h; injection h with hx; subst hx
    rw [alu_writeback_acc _ _ _ _ hacc, setGpi_gpi]; exact if_neg hr
  rw [if_neg h24] at h
  by_cases h25 : op.operation = AX_EXE_ALU_SLTU
  · rw [if_pos h25] at h; injection h with hx; subst hx
    rw [alu_writeback_acc _ _ _ _ hacc, setGpi_gpi]; exact if_neg hr
  rw [if_neg h25] at h
  by_cases h26 : op.operation = AX_EXE_ALU_SAND
  · rw [if_pos h26] at h; injection h with hx; subst hx
    rw [alu_writeback_acc _ _ _ _ hacc, setGpi_gpi]; exact if_neg hr
  rw [if_neg h26] at h
  by_cases h27 : op.operation = AX_EXE_ALU_SBIT
  · rw [if_pos h27] at h; injection h with hx; subst hx
    rw [alu_writeback_acc _ _ _ _ hacc, setGpi_gpi]; exact if_neg hr
  rw [if_neg h27] at h
  by_cases h28 : op.operation = AX_EXE_ALU_CMOVEN
  · rw [if_pos h28] at h; injection h with hx; subst hx
    split
    · rw [alu_writeback_acc _ _ _ _ hacc, setGpi_gpi]; exact if_neg hr
    · rfl
  rw [if_neg h28] at h
  by_cases h29 : op.operation = AX_EXE_ALU_CMOVE
  · rw [if_pos h29] at h; injection h with hx; subst hx
    split
    · rw [alu_writeback_acc _ _ _ _ hacc, setGpi_gpi]; exact if_neg hr
    · rfl
  rw [if_neg h29] at h
  exact Except.noConfusion h

theorem execute_fpu_acc_gpf (ops : FpOps) (op : AxOpcode) (slot : Fin 2) (imm24 : Nat)
    (s s' : CoreState) (hacc : op.reg_a = REG_ACC)
    (h : execute_fpu ops op slot imm24 s = .ok s')
    (r : Fin 64) (hr : r ≠ REG_BF slot) : s'.regs.gpf r = s.regs.gpf r := by
  simp only [execute_fpu] at h
  by_cases h0 : op.operation = AX_EXE_FPU_FADD
  · rw [if_pos h0] at h; exact Except.noConfusion h
  rw [if_neg h0] at h
  by_cases h1 : op.operation = AX_EXE_FPU_FSUB
  · rw [if_pos h1] at h; exact Except.noConfusion h
  rw [if_neg h1] at h
  by_cases h2 : op.operation = AX_EXE_FPU_FMUL
  · rw [if_pos h2] at h
    by_cases hs : op.size.val ≤ 2
    · rw [if_pos hs] at h; exact Except.noConfusion h
    · rw [if_neg hs] at h; exact Except.noConfusion h
  rw [if_neg h2] at h
  by_cases h3 : op.operation = AX_EXE_FPU_FNMUL
  · rw [if_pos h3] at h; exact Except.noConfusion h
  rw [if_neg h3] at h
  by_cases h4 : op.operation = AX_EXE_FPU_FMIN
  · rw [if_pos h4] at h; exact Except.noConfusion h
  rw [if_neg h4] at h
  by_cases h5 : op.operation = AX_EXE_FPU_FMAX
  · rw [if_pos h5] at h; exact Except.noConfusion h
  rw [if_neg h5] at h
  by_cases h6 : op.operation = AX_EXE_FPU_FNEG
  · rw [if_pos h6] at h; exact Except.noConfusion h
  rw [if_neg h6] at h
  by_cases h7 : op.operation = AX_EXE_FPU_FABS
  · rw [if_pos h7] at h; exact Except.noConfusion h
  rw [if_neg h7] at h
  by_cases h8 : op.operation = AX_EXE_FPU_FCMOVE
  · rw [if_pos h8] at h; injection h with hx; subst hx
    split
    · simp only [fpu_writeback_i64]
      rw [fpu_writeback_bits_acc _ _ _ _ hacc, setGpf_gpf]; exact if_neg hr
    · rfl
  rw [if_neg h8] at h
  by_cases h9 : op.operation = AX_EXE_FPU_FE
  · rw [if_pos h9] at h; exact Except.noConfusion h
  rw [if_neg h9] at h
  by_cases h10 : op.operation = AX_EXE_FPU_FEN
  · rw [if_pos h10] at h; exact Except.noConfusion h
  rw [if_neg h10] at h
  by_cases h11 : op.operation = AX_EXE_FPU_FSLT
  · rw [if_pos h11] at h; exact Except.noConfusion h
  rw [if_neg h11] at h
  by_cases h12 : op.operation = AX_EXE_FPU_FMOVE
  · rw [if_pos h12] at h; injection h with hx; subst hx
    simp only [fpu_writeback_i64]
    rw [fpu_writeback_bits_acc _ _ _ _ hacc, setGpf_gpf]; exact if_neg hr
  rw [if_neg h12] at h
  by_cases h13 : op.operation = AX_EXE_FPU_FCMP
  · rw [if_pos h13] at h
    by_cases hs0 : op.size.val = 0
    · rw [if_pos hs0] at h; injection h with hx; subst hx; rfl
    rw [if_neg hs0] at h
    by_cases hs1 : op.size.val = 1
    · rw [if_pos hs1] at h; injection h with hx; subst hx; rfl
    rw [if_neg hs1] at h
    exact Except.noConfusion h
  rw [if_neg h13] at h
  exact Except.noConfusion h

theorem lsu_writeback_acc_gpi (op : AxOpcode) (slot : Fin 2) (v : Nat) (s : CoreState)
    (hacc : op.reg_a = REG_ACC) (r : Fin 64) (hr1 : r ≠ REG_BL slot) (hr2 : r ≠ REG_ACC) :
    (lsu_writeback op slot v s).regs.gpi r = s.regs.gpi r := by
  simp [lsu_writeback, setGpi_gpi, hacc, hr1, hr2]

theorem lsu_writeback_float_acc_gpf (op : AxOpcode) (slot : Fin 2) (v : Nat) (s : CoreState)
    (hacc : op.reg_a = REG_ACC) (r : Fin 64) (hr1 : r ≠ REG_BL slot) (hr2 : r ≠ REG_ACC) :
    (lsu_writeback_float op slot v s).regs.gpf r = s.regs.gpf r := by
  simp [lsu_writeback_float, setGpf_gpf, hacc, hr1, hr2]

theorem execute_lsu_acc_regs (op : AxOpcode) (slot : Fin 2) (imm24 : Nat) (s s' : CoreState)
    (hacc : op.reg_a = REG_ACC) (h : execute_lsu op slot imm24 s = .ok s')
    (r : Fin 64) (hr1 : r ≠ REG_BL slot) (hr2 : r ≠ REG_ACC) :
    s'.regs.gpi r = s.regs.gpi r ∧ s'.regs.gpf r = s.regs.gpf r := by
  simp only [execute_lsu] at h
  by_cases h0 : op.operation = AX_EXE_LSU_LD
  · rw [if_pos h0] at h
    cases hl : do_load s.mem (lsu_addrreg op slot s) op.size.val with
    | error e => rw [hl] at h; exact Except.noConfusion h
    | ok v =>
      rw [hl] at h; simp only [Except.map] at h
      injection h with hx; subst hx
      exact ⟨lsu_writeback_acc_gpi op slot _ s hacc r hr1 hr2, rfl⟩
  rw [if_neg h0] at h
  by_cases h1 : op.operation = AX_EXE_LSU_LDS
  · rw [if_pos h1] at h
    cases hl : do_load s.mem (lsu_addrreg op slot s) op.size.val with
    | error e => rw [hl] at h; exact Except.noConfusion h
    | ok v =>
      rw [hl] at h; simp only [Except.map] at h
      injection h with hx; subst hx
      exact ⟨lsu_writeback_acc_gpi op slot _ s hacc r hr1 hr2, rfl⟩
  rw [if_neg h1] at h
  by_cases h2 : op.operation = AX_EXE_LSU_FLD
  · rw [if_pos h2] at h
    cases hl : do_load s.mem (lsu_addrreg op slot s) (op.size.val + 2) with
    | error e => rw [hl] at h; exact Except.noConfusion h
    | ok v =>
      rw [hl] at h; simp only [Except.map] at h
      injection h with hx; subst hx
      exact ⟨rfl, lsu_writeback_float_acc_gpf op slot _ s hacc r hr1 hr2⟩
  rw [if_neg h2] at h
  by_cases h3 : op.operation = AX_EXE_LSU_ST
  · rw [if_pos h3] at h
    cases hl : do_store s.mem (s.regs.gpi op.reg_a) (lsu_addrreg op slot s) op.size.val with
    | error e => rw [hl] at h; exact Except.noConfusion h
    | ok m =>
      rw [hl] at h; simp only [Except.map] at h
      injection h with hx; subst hx
      exact ⟨rfl, rfl⟩
  rw [if_neg h3] at h
  by_cases h4 : op.operation = AX_EXE_LSU_FST
  · rw [if_pos h4] at h
    cases hl : do_store s.mem (s.regs.gpf op.reg_a) (lsu_addrreg op slot s) (op.size.val + 2) with
    | error e => rw [hl] at h; exact Except.noConfusion h
    | ok m =>
      rw [hl] at h; simp only [Except.map] at h
      injection h with hx; subst hx
      exact ⟨rfl, rfl⟩
  rw [if_neg h4] at h
  by_cases h5 : op.operation = AX_EXE_LSU_LDI
  · rw [if_pos h5] at h
    cases hl : do_load s.mem (lsu_addrimm op slot imm24 s) op.size.val with
    | error e => rw [hl] at h; exact Except.noConfusion h
    | ok v =>
      rw [hl] at h; simp only [Except.map] at h
      injection h with hx; subst hx
      exact ⟨lsu_writeback_acc_gpi op slot _ s hacc r hr1 hr2, rfl⟩
  rw [if_neg h5] at h
  by_cases h6 : op.operation = AX_EXE_LSU_LDIS
  · rw [if_pos h6] at h
    cases hl : do_load s.mem (lsu_addrimm op slot imm24 s) op.size.val with
    | error e => rw [hl] at h; exact Except.noConfusion h
    | ok v =>
      rw [hl] at h; simp only [Except.map] at h
      injection h with hx; subst hx
      exact ⟨lsu_writeback_acc_gpi op slot _ s hacc r hr1 hr2, rfl⟩
  rw [if_neg h6] at h
  by_cases h7 : op.operation = AX_EXE_LSU_FLDI
  · rw [if_pos h7] at h
    cases hl : do_load s.mem (lsu_addrimm op slot imm24 s) (op.size.val + 2) with
    | error e => rw [hl] at h; exact Except.noConfusion h
    | ok v =>
      rw [hl] at h; simp only [Except.map] at h
      injection h with hx; subst hx
      exact ⟨rfl, lsu_writeback_float_acc_gpf op slot _ s hacc r hr1 hr2⟩
  rw [if_neg h7] at h
  by_cases h8 : op.operation = AX_EXE_LSU_STI
  · rw [if_pos h8] at h
    cases hl : do_store s.mem (s.regs.gpi op.reg_a) (lsu_addrimm op slot imm24 s) op.size.val with
    | error e => rw [hl] at h; exact Except.noConfusion h
    | ok m =>
      rw [hl] at h; simp only [Except.map] at h
      injection h with hx; subst hx
      exact ⟨rfl, rfl⟩
  rw [if_neg h8] at h
  by_cases h9 : op.operation = AX_EXE_LSU_FSTI
  · rw [if_pos h9] at h
    cases hl : do_store s.mem (s.regs.gpf op.reg_a) (lsu_addrimm op slot imm24 s) (op.size.val + 2) with
    | error e => rw [hl] at h; exact Except.noConfusion h
    | ok m =>
      rw [hl] at h; simp only [Except.map] at h
      injection h with hx; subst hx
      exact ⟨rfl, rfl⟩
  rw [if_neg h9] at h
  exact Except.noConfusion h

/- ## Signed-view lemmas -/

theorem toSigned_eq_zero_iff (v : Nat) (h : v < U64) : toSigned 64 v = 0 ↔ v = 0 := by
  simp only [toSigned, U64] at *
  split <;> omega

theorem intToU64_toSigned (v : Nat) (h : v < U64) : intToU64 (toSigned 64 v) = v := by
  simp only [intToU64, toSigned, U64] at *
  split <;> omega

theorem fpu_writeback_bits_bf (op : AxOpcode) (slot : Fin 2) (bits : Nat) (s : CoreState) :
    (fpu_writeback_bits op slot bits s).regs.gpf (REG_BF slot) = bits := by
  unfold fpu_writeback_bits
  split
  · rw [setGpf_gpf]
    by_cases hba : REG_BF slot = op.reg_a
    · rw [if_pos hba]
    · rw [if_neg hba, setGpf_gpf, if_pos rfl]
  · rw [setGpf_gpf, if_pos rfl]

theorem fpu_writeback_bits_reg_a (op : AxOpcode) (slot : Fin 2) (bits : Nat) (s : CoreState)
    (h : op.reg_a ≠ REG_ACC) :
    (fpu_writeback_bits op slot bits s).regs.gpf op.reg_a = bits := by
  unfold fpu_writeback_bits
  rw [if_pos h, setGpf_gpf, if_pos rfl]

/- ## Claim theorems -/

/-- C10: FCMOVE decides its condition on the raw 64-bit bit pattern of FP
register `reg_b` (ACC redirected to the slot's BF bypass), not on its
floating-point value: every nonzero bit pattern — including negative zero
`0x8000000000000000` and NaN encodings — triggers the bit-copy of the raw
pattern of `reg_c` into the BF bypass and (unless `reg_a` is ACC) into FP
GPR `reg_a`; only the all-zero pattern leaves the state unchanged.
Holds for every model `ops` of the host FP arithmetic, since the source
compares `to_floating_point<int64_t>` views, i.e. raw patterns. -/
theorem C10_fcmove_raw_bits (ops : FpOps) (op : AxOpcode) (slot : Fin 2) (imm24 : Nat)
    (s : CoreState) (hop : op.operation = AX_EXE_FPU_FCMOVE)
    (hwf : ∀ i : Fin 64, s.regs.gpf i < U64) :
    (fpu_read_raw slot s op.reg_b = 0 → execute_fpu ops op slot imm24 s = .ok s) ∧
    (fpu_read_raw slot s op.reg_b ≠ 0 →
      ∃ s', execute_fpu ops op slot imm24 s = .ok s' ∧
        s'.regs.gpf (REG_BF slot) = fpu_read_raw slot s op.reg_c ∧
        (op.reg_a ≠ REG_ACC → s'.regs.gpf op.reg_a = fpu_read_raw slot s op.reg_c)) := by
  have hb : fpu_read_raw slot s op.reg_b < U64 := by
    unfold fpu_read_raw; split <;> exact hwf _
  have hc : fpu_read_raw slot s op.reg_c < U64 := by
    unfold fpu_read_raw; split <;> exact hwf _
  have hbody : execute_fpu ops op slot imm24 s
      = .ok (if fpu_read_i64 slot s op.reg_b ≠ 0 then
          fpu_writeback_i64 op slot (fpu_read_i64 slot s op.reg_c) s else s) := by
    simp only [execute_fpu]
    rw [if_neg (by rw [hop]; decide), if_neg (by rw [hop]; decide),
        if_neg (by rw [hop]; decide), if_neg (by rw [hop]; decide),
        if_neg (by rw [hop]; decide), if_neg (by rw [hop]; decide),
        if_neg (by rw [hop]; decide), if_neg (by rw [hop]; decide), if_pos hop]
  constructor
  · intro hz
    have hzi : fpu_read_i64 slot s op.reg_b = 0 := by
      unfold fpu_read_i64; rw [hz]; rfl
    rw [hbody, if_neg (by simp [hzi])]
  · intro hnz
    have hzi : fpu_read_i64 slot s op.reg_b ≠ 0 := by
      unfold fpu_read_i64
      intro hcon
      exact hnz ((toSigned_eq_zero_iff _ hb).mp hcon)
    refine ⟨_, by rw [hbody, if_pos hzi], ?_, ?_⟩
    · unfold fpu_writeback_i64 fpu_read_i64
      rw [fpu_writeback_bits_bf, intToU64_toSigned _ hc]
    · intro hra
      unfold fpu_writeback_i64 fpu_read_i64
      rw [fpu_writeback_bits_reg_a _ _ _ _ hra, intToU64_toSigned _ hc]

/-- A concrete FCMOVE whose `reg_b` holds the negative-zero pattern. -/
def c10op : AxOpcode :=
  { baseOp with
    unit := 3, operation := AX_EXE_FPU_FCMOVE, size := 0, reg_a := 1, reg_b := 2, reg_c := 3 }

def c10st : CoreState :=
  { zeroState with regs := { zeroRegs with
      gpf := fun i => if i = 2 then 0x8000000000000000 else if i = 3 then 0xDEAD else 0 } }

/-- C10 witness: with `reg_b` holding the bit pattern of `-0.0` (nonzero as
a pattern, zero as a float), FCMOVE does copy `reg_c`'s pattern. -/
theorem C10_fcmove_raw_bits_witness :
    gpf_after (execute_fpu trivFpOps c10op 0 0 c10st) c10op.reg_a = some 0xDEAD := by
  obtain ⟨_, h2⟩ := C10_fcmove_raw_bits trivFpOps c10op 0 0 c10st rfl (by decide)
  obtain ⟨s', he, hbf, hra⟩ := h2 (by decide)
  simp only [gpf_after, he]
  rw [hra (by decide)]
  decide

/-- C1: the claim says an FPU FADD with size 0 on finite-real single
operands completes without failing and leaves the single-precision sum in
the BF bypass and `reg_a`.  On the code this is false: the inner
`switch(op.size())` of FADD has no `break`, so after the single-precision
writeback control falls through the double and HTOF writebacks into the
default `ax_panic` — execution aborts for every operand values and every
model of the host FP arithmetic. -/
theorem C1_fadd_size0_panics (ops : FpOps) (op : AxOpcode) (slot : Fin 2) (imm24 : Nat)
    (s : CoreState) (hop : op.operation = AX_EXE_FPU_FADD) (hsz : op.size = 0) :
    execute_fpu ops op slot imm24 s = .error "Cannot perform FPU operation with size" := by
  simp only [execute_fpu]
  rw [if_pos hop]

/-- A concrete FADD.s: `v2 = 1.5f`, `v3 = 0.25f` (finite reals). -/
def c1op : AxOpcode :=
  { baseOp with
    unit := 3, operation := AX_EXE_FPU_FADD, size := 0, reg_a := 1, reg_b := 2, reg_c := 3 }

def c1st : CoreState :=
  { zeroState with regs := { zeroRegs with
      gpf := fun i => if i = 2 then 0x3FC00000 else if i = 3 then 0x3E800000 else 0 } }

/-- C1 witness: the concrete FADD.s with finite-real operands panics. -/
theorem C1_fadd_size0_panics_witness :
    execute_fpu trivFpOps c1op 0 0 c1st = .error "Cannot perform FPU operation with size" :=
  C1_fadd_size0_panics trivFpOps c1op 0 0 c1st rfl rfl

/-- A register-form ALU ADD with `alu_shift = 1` and `gpi[reg_c] = 1`. -/
def c2op : AxOpcode :=
  { baseOp with
    unit := 0, operation := AX_EXE_ALU_ADD, size := 3, reg_a := 1, reg_b := 5, reg_c := 3,
    alu_shift := 1 }

def c2st : CoreState :=
  { zeroState with regs := { zeroRegs with gpi := fun i => if i = 3 then 1 else 0 } }

/-- C2: the claim (and the spec, and the source's own comment "dereference
reg C and apply shift") say the non-immediate ALU right operand is
`read_reg(reg_c) << alu_shift`.  The source's ALU `right` lambda applies no
shift (unlike its MDU counterpart): with `gpi[reg_c] = 1` and
`alu_shift = 1` the right operand is 1, not 2, and `ADD r1, r5, r3 << 1`
writes 1 to `r1`. -/
theorem C2_alu_right_ignores_shift :
    alu_right c2op 0 0 c2st = 1 ∧
    u64shl (c2st.regs.gpi c2op.reg_c) c2op.alu_shift = 2 ∧
    gpi_after (execute_alu c2op 0 0 c2st) c2op.reg_a = some 1 ∧ (1 : Nat) ≠ 2 := by
  decide

/-- SLTU with `gpi[reg_b] = 2`, `gpi[reg_c] = 1` at 64-bit width. -/
def c3op : AxOpcode :=
  { baseOp with
    unit := 0, operation := AX_EXE_ALU_SLTU, size := 3, reg_a := 3, reg_b := 1, reg_c := 2 }

def c3st : CoreState :=
  { zeroState with regs := { zeroRegs with
      gpi := fun i => if i = 1 then 2 else if i = 2 then 1 else 0 } }

/-- C3: the claim says SLTU sets the destination to 1 iff
`trunc(left) < trunc(right)` unsigned.  The source computes
`trunc(left) != trunc(right)` instead (a copy of SEN): with left 2 and
right 1 the destination receives 1 although `2 < 1` is false. -/
theorem C3_sltu_not_unsigned_lt :
    gpi_after (execute_alu c3op 0 0 c3st) c3op.reg_a = some 1 ∧
    ¬ (c3st.regs.gpi c3op.reg_b &&& sizemask c3op.size
         < c3st.regs.gpi c3op.reg_c &&& sizemask c3op.size) := by
  decide

/-- C4: for every pair of instruction words whose execution completes,
`execute` returns 0 when PC changed during the bundle, otherwise 2 when
`first` has the bundle flag and 1 when it does not. -/
theorem C4_retired_count (ops : FpOps) (first second : AxOpcode) (s : CoreState)
    (r : Nat) (s' : CoreState) (h : execute ops first second s = .ok (r, s')) :
    r = if s.regs.pc ≠ s'.regs.pc then 0 else if first.is_bundle then 2 else 1 := by
  simp only [execute] at h
  cases hu : execute_unit ops first 0
      (if first.is_bundle && second.is_moveix then second.moveix_imm24 else 0) s with
  | error e => rw [hu] at h; exact Except.noConfusion h
  | ok s1 =>
    rw [hu] at h
    dsimp only at h
    cases hv : (if first.is_bundle && !second.is_moveix then
        execute_unit ops second 1
          (if first.is_bundle && second.is_moveix then second.moveix_imm24 else 0) s1
      else .ok s1) with
    | error e => rw [hv] at h; exact Except.noConfusion h
    | ok s2 =>
      rw [hv] at h
      dsimp only at h
      by_cases hpc : s.regs.pc ≠ s2.regs.pc
      · rw [if_pos hpc] at h
        simp only [Except.ok.injEq, Prod.mk.injEq] at h
        obtain ⟨hr, hs⟩ := h
        subst hr; subst hs
        exact (if_pos hpc).symm
      · rw [if_neg hpc] at h
        simp only [Except.ok.injEq, Prod.mk.injEq] at h
        obtain ⟨hr, hs⟩ := h
        subst hr; subst hs
        exact (if_neg hpc).symm

/-- C4 witness: a non-bundled noop retires 1. -/
theorem C4_retired_count_witness :
    (1 : Nat) = if zeroState.regs.pc ≠ (zero_reg63 zeroState).regs.pc then 0
      else if baseOp.is_bundle then 2 else 1 :=
  C4_retired_count trivFpOps baseOp baseOp zeroState 1 (zero_reg63 zeroState) (by rfl)

/-- An LSU load whose destination field is ACC (register 56). -/
def c5op : AxOpcode :=
  { baseOp with
    unit := 2, operation := AX_EXE_LSU_LD, size := 0, reg_a := 56, reg_b := 0, reg_c := 0 }

def c5st : CoreState := { zeroState with mem := fun a => if a = 0 then 7 else 0 }

/-- C5 counterexample: the claim says that for LSU operations too, an ACC
destination writes only the BL bypass and GPR 56 is not modified.  The
source's LSU writeback lambda has no ACC check: a byte load of 7 with
`reg_a = ACC` changes GPR 56 from 0 to 7. -/
theorem C5_lsu_ld_acc_writes_gpr56 :
    c5op.reg_a = REG_ACC ∧
    c5st.regs.gpi 56 = 0 ∧
    gpi_after (execute_lsu c5op 0 0 c5st) 56 = some 7 ∧ (7 : Nat) ≠ 0 := by
  decide

/-- C5 (amended): for every ALU operation with an ACC destination the only
integer register that can change is the slot's BA bypass, and for every FPU
operation the only FP register that can change is the slot's BF bypass; an
LSU operation with an ACC destination leaves every integer and FP register
other than the slot's BL bypass and GPR/FPR 56 unchanged (the loaded value
also lands in GPR 56 / FPR 56, as the counterexample shows). -/
theorem C5_acc_bypass_only_alu_fpu (op : AxOpcode) (slot : Fin 2) (imm24 : Nat)
    (s s' : CoreState) (hacc : op.reg_a = REG_ACC) :
    (execute_alu op slot imm24 s = .ok s' →
       ∀ r : Fin 64, r ≠ REG_BA slot → s'.regs.gpi r = s.regs.gpi r) ∧
    (∀ ops : FpOps, execute_fpu ops op slot imm24 s = .ok s' →
       ∀ r : Fin 64, r ≠ REG_BF slot → s'.regs.gpf r = s.regs.gpf r) ∧
    (execute_lsu op slot imm24 s = .ok s' →
       ∀ r : Fin 64, r ≠ REG_BL slot → r ≠ REG_ACC →
         s'.regs.gpi r = s.regs.gpi r ∧ s'.regs.gpf r = s.regs.gpf r) :=
  ⟨fun h r hr => execute_alu_acc_gpi op slot imm24 s s' hacc h r hr,
   fun ops h r hr => execute_fpu_acc_gpf ops op slot imm24 s s' hacc h r hr,
   fun h r hr1 hr2 => execute_lsu_acc_regs op slot imm24 s s' hacc h r hr1 hr2⟩

/-- An ALU `ADD acc, r0, 5` (immediate form, ACC destination). -/
def c5wop : AxOpcode :=
  { baseOp with
    unit := 0, operation := AX_EXE_ALU_ADD, size := 3, reg_a := 56,
    alu_has_imm := true, alu_imm9 := 5 }

/-- C5 witness: the ALU part applied to a concrete ACC-destination ADD —
GPR 56 itself stays 0. -/
theorem C5_acc_bypass_only_alu_fpu_witness :
    gpi_after (execute_alu c5wop 0 0 zeroState) 56 = some 0 := by
  have h : execute_alu c5wop 0 0 zeroState = .ok (setGpi zeroState (REG_BA 0) 5) := by rfl
  have h2 := (C5_acc_bypass_only_alu_fpu c5wop 0 0 zeroState
      (setGpi zeroState (REG_BA 0) 5) (by decide)).1 h 56 (by decide)
  simp only [gpi_after, h, h2]
  rfl

/-- `ADD r63, r63, 1`: an instruction whose destination names register 63. -/
def c6op : AxOpcode :=
  { baseOp with
    unit := 0, operation := AX_EXE_ALU_ADD, size := 3, reg_a := 63, reg_b := 63,
    alu_has_imm := true, alu_imm9 := 1 }

/-- C6 counterexample: the claim says that after any instruction — including
one whose destination field names register 63 — GPR 63 reads as 0.  On the
code, register 63 is reset at the START of the next unit dispatch, not after
the write: immediately after `ADD r63, r63, 1` GPR 63 holds 1. -/
theorem C6_write_to_reg63_is_visible :
    gpi_after (execute_unit trivFpOps c6op 0 0 zeroState) 63 = some 1 ∧ (1 : Nat) ≠ 0 := by
  decide

/-- C6 (amended): GPR 63 and FPR 63 are zeroed at the start of every unit
dispatch, before the instruction runs; hence every instruction observes
register 63 as 0 and the register-63 content of the pre-state is never
observable (executing from `s` and from `s` with register 63 zeroed give
identical results).  A write to register 63 may however leave a nonzero
value in the register file until the next dispatch. -/
theorem C6_reg63_zeroed_at_dispatch (ops : FpOps) (op : AxOpcode) (slot : Fin 2)
    (imm24 : Nat) (s : CoreState) :
    execute_unit ops op slot imm24 s = execute_unit ops op slot imm24 (zero_reg63 s) ∧
    (zero_reg63 s).regs.gpi REG_ZERO = 0 ∧ (zero_reg63 s).regs.gpf REG_ZERO = 0 := by
  refine ⟨?_, rfl, rfl⟩
  simp only [execute_unit, zero_reg63_idem]

/-- `CMP.b r1, r2` with `r1 = 0x7F`, `r2 = 0xFF`. -/
def c7op : AxOpcode :=
  { baseOp with unit := 0, operation := AX_EXE_ALU_CMP, size := 0, reg_b := 1, reg_c := 2 }

def c7st : CoreState :=
  { zeroState with regs := { zeroRegs with
      pc := 42
      gpi := fun i => if i = 1 then 0x7F else if i = 2 then 0xFF else 0 } }

def c7blt : AxOpcode :=
  { baseOp with unit := 7, operation := AX_EXE_BRU_BLT, bru_imm23 := 1 }

def c7bge : AxOpcode :=
  { baseOp with unit := 7, operation := AX_EXE_BRU_BGE, bru_imm23 := 1 }

/-- C7 counterexample: the claim says CMP.b of 127 and −1 gives N = 0 and
C = 0 and a subsequent BLT is taken.  On the code FR becomes 14
(Z = 0, C = 1, N = 1, O = 1, U = 0) — the wrapped difference 127 − (−1) is
0x80, which is negative at width 8 and exceeds `toui(left)` — and BLT
(taken iff N ≠ O ∧ ¬U) leaves PC unchanged at 42. -/
theorem C7_counterexample :
    fr_after (execute_alu c7op 0 0 c7st) = some 14 ∧
    14 &&& N_MASK ≠ 0 ∧ 14 &&& C_MASK ≠ 0 ∧
    pc_after (execute_bru c7blt 0 (setFr c7st 14)) = some 42 := by
  decide

/-- C7 (amended): CMP.b with left = 0x7F and right = 0xFF (signed bytes 127
and −1) sets FR.Z = 0, FR.N = 1, FR.O = 1, FR.C = 1, FR.U = 0 (FR = 14,
matching the spec's own §4.3 CMP semantics); a subsequent BLT is NOT taken
(N = O) and a subsequent BGE IS taken (PC moves by rel23 = 1, from 42
to 43). -/
theorem C7_cmp_byte_flags_and_branches :
    fr_after (execute_alu c7op 0 0 c7st) = some (C_MASK ||| N_MASK ||| O_MASK) ∧
    pc_after (execute_bru c7blt 0 (setFr c7st 14)) = some 42 ∧
    pc_after (execute_bru c7bge 0 (setFr c7st 14)) = some 43 := by
  decide

/-- `DIVU.b` with `r1 = 200`, `r2 = 128` (both fit in 8 bits unsigned). -/
def c8op : AxOpcode :=
  { baseOp with unit := 6, operation := AX_EXE_MDU_DIVU, size := 0, reg_b := 1, reg_c := 2 }

def c8st : CoreState :=
  { zeroState with regs := { zeroRegs with
      gpi := fun i => if i = 1 then 200 else if i = 2 then 128 else 0 } }

/-- C8 counterexample: the claim says DIVU applies no sign-extension and
MDU[0] receives `trunc_w(left) / trunc_w(right)` — here 200 / 128 = 1.
The source sign-extends the truncated right operand to 64 bits before the
(64-bit unsigned) division: the divisor becomes 0xFFFFFFFFFFFFFF80 and the
quotient is 0. -/
theorem C8_counterexample :
    mdu_after (execute_mdu c8op 0 c8st) 0 = some 0 ∧
    (c8st.regs.gpi c8op.reg_b &&& sizemask c8op.size) /
      (c8st.regs.gpi c8op.reg_c &&& sizemask c8op.size) = 1 ∧
    (0 : Nat) ≠ 1 := by
  decide

/-- C8 (amended): for every MDU DIVU whose truncated-then-sign-extended
right operand is nonzero, MDU[0] receives
`trunc_w(left) / sext_w(trunc_w(right))` and MDU[1] the corresponding
remainder — the division is performed on 64-bit unsigned values with the
divisor sign-extended from width w, and both results are truncated to w. -/
theorem C8_divu_sign_extends_divisor (op : AxOpcode) (imm24 : Nat) (s : CoreState)
    (hop : op.operation = AX_EXE_MDU_DIVU)
    (hnz : sext_bytesize (mdu_right op imm24 s &&& sizemask op.size) (1 <<< op.size.val) ≠ 0) :
    ∃ s', execute_mdu op imm24 s = .ok s' ∧
      s'.regs.mdu 0 = ((mdu_left op s &&& sizemask op.size) /
          sext_bytesize (mdu_right op imm24 s &&& sizemask op.size) (1 <<< op.size.val))
          &&& sizemask op.size ∧
      s'.regs.mdu 1 = ((mdu_left op s &&& sizemask op.size) %
          sext_bytesize (mdu_right op imm24 s &&& sizemask op.size) (1 <<< op.size.val))
          &&& sizemask op.size := by
  have hbody : execute_mdu op imm24 s
      = .ok (setMdu (setMdu s 0
          (((mdu_left op s &&& sizemask op.size) /
             sext_bytesize (mdu_right op imm24 s &&& sizemask op.size) (1 <<< op.size.val))
            &&& sizemask op.size)) 1
          (((mdu_left op s &&& sizemask op.size) %
             sext_bytesize (mdu_right op imm24 s &&& sizemask op.size) (1 <<< op.size.val))
            &&& sizemask op.size)) := by
    simp only [execute_mdu, alu_trunc, alu_sext]
    rw [if_neg (by rw [hop]; decide), if_pos hop, if_neg hnz]
  refine ⟨_, hbody, ?_, ?_⟩
  · rw [setMdu_mdu, if_neg (by decide), setMdu_mdu, if_pos rfl]
  · rw [setMdu_mdu, if_pos rfl]

/-- C8 witness: the concrete DIVU.b of 200 by 128 leaves remainder 200 in
MDU[1] (200 mod 0xFFFFFFFFFFFFFF80 = 200). -/
theorem C8_divu_sign_extends_divisor_witness :
    mdu_after (execute_mdu c8op 0 c8st) 1 = some 200 := by
  obtain ⟨s', h1, h2, h3⟩ := C8_divu_sign_extends_divisor c8op 0 c8st rfl (by decide)
  simp only [mdu_after, h1]
  rw [h3]
  decide

/-- C9: after a CU SYSCALL, IR holds the 32-bit value
`PC + 1 + (1 if the instruction's bundle flag is set else 0)` (the PC of the
syscall bundle — PC is only advanced after the bundle), PC is parked at
0x80000000, and the syscall latch is raised; the driver-facing gate
(`AxCore::syscall`) then returns true exactly once — invoking the supplied
handler and clearing the latch after it returns — and returns false on
every call made while the latch is clear. -/
theorem C9_syscall_latch_and_gate (op : AxOpcode) (imm24 : Nat) (s : CoreState)
    (hop : op.operation = AX_EXE_CU_SYSCALL) :
    ∃ s', execute_cu op imm24 s = .ok s' ∧
      s'.regs.ir = (s.regs.pc + 1 + (if op.is_bundle then 1 else 0)) % U32 ∧
      s'.regs.pc = 0x80000000 ∧
      s'.m_syscall = 1 ∧
      (∀ handler, syscall handler s' = (true, { handler s' with m_syscall := 0 })) ∧
      (∀ handler (s2 : CoreState), s2.m_syscall = 0 → syscall handler s2 = (false, s2)) := by
  have hbody : execute_cu op imm24 s
      = .ok { setPc (setIr s (lr_value op s)) 0x80000000 with m_syscall := 1 } := by
    simp only [execute_cu]
    rw [if_neg (by rw [hop]; decide), if_neg (by rw [hop]; decide),
        if_neg (by rw [hop]; decide), if_neg (by rw [hop]; decide), if_pos hop]
  refine ⟨_, hbody, rfl, rfl, rfl, fun handler => ?_, fun handler s2 h0 => ?_⟩
  · simp [syscall]
  · simp [syscall, h0]

def c9op : AxOpcode := { baseOp with unit := 5, operation := AX_EXE_CU_SYSCALL }

def c9st : CoreState := { zeroState with regs := { zeroRegs with pc := 100 } }

/-- C9 witness: a concrete SYSCALL at PC 100 parks PC at 0x80000000. -/
theorem C9_syscall_latch_and_gate_witness :
    pc_after (execute_cu c9op 0 c9st) = some 0x80000000 := by
  obtain ⟨s', h1, h2, h3, h4, h5, h6⟩ := C9_syscall_latch_and_gate c9op 0 c9st rfl
  simp only [pc_after, h1, h3]
